import Mathlib

/-!
Verification development for the eFiche clinical-data ETL pipeline.

The Python sources are shallowly embedded as executable Lean functions:

* `Pipeline`  — pipeline/load_data_to_pgadmin.py (operational loader,
  master-data manager, per-row processing, batched run loop).
* `Analytics` — dwh/etl_analytics.py (two-database dimensional ETL).
* `FactFixed` — dwh/load_fact_table.py (stand-alone fact loader variant).
* `DbConn`    — utils/db_connection.py (connection provider).
* `Generator` — synthetic_data_engine/padChest_synthetic_data_generator.py
  (patient registry, incremental data manager).

Python strings are represented as `List Char`.  Database sessions are
modelled with an explicit pair of table states (committed snapshot and
current in-transaction view); exceptions raised by database statements are
injected through an oracle `fail : Nat → Option (List Char)` indexed by the
running count of database operations, and are propagated as `Except` values.
Values produced by external collaborators that no property depends on
(random names, confidence scores, wall-clock timestamps, pandas parsing)
are threaded as abstract supplies or omitted from the modelled rows.
-/

/-- Abbreviation: embed a Lean string literal as a Python-style character list. -/
def S (s : String) : List Char := s.toList

/-- Characters removed by Python `str.strip()` with no argument. -/
def isPySpace (c : Char) : Bool :=
  c == ' ' || c == '\t' || c == '\n' || c == '\r' || c == '\x0b' || c == '\x0c'

/-- Python `str.strip()`: drop leading and trailing whitespace. -/
def pyStrip (s : List Char) : List Char :=
  ((s.dropWhile isPySpace).reverse.dropWhile isPySpace).reverse

/-- Python `str.lower()` (ASCII fragment used by this code base). -/
def pyLower (s : List Char) : List Char := s.map Char.toLower

/-- Python `str.upper()` (ASCII fragment used by this code base). -/
def pyUpper (s : List Char) : List Char := s.map Char.toUpper

/-- Python `str.replace(old, new)` for one-character patterns. -/
def pyReplaceChar (old new : Char) (s : List Char) : List Char :=
  s.map (fun c => if c == old then new else c)

/-- Python `str.split(sep)` with an explicit one-character separator: every
occurrence splits, empty pieces are kept, and the result is never empty. -/
def splitOnChar (sep : Char) : List Char → List (List Char)
  | [] => [[]]
  | c :: cs =>
    if c == sep then [] :: splitOnChar sep cs
    else
      match splitOnChar sep cs with
      | [] => [[c]]
      | g :: gs => (c :: g) :: gs

/-- Whether `pre` is an initial segment of the second list. -/
def startsWithSeq : List Char → List Char → Bool
  | [], _ => true
  | _ :: _, [] => false
  | a :: xs, b :: ys => a == b && startsWithSeq xs ys

/-- Python's substring test `needle in haystack`. -/
def containsSeq (needle : List Char) : List Char → Bool
  | [] => needle.isEmpty
  | c :: cs => startsWithSeq needle (c :: cs) || containsSeq needle cs

/-- Base-10 digits of `n`, least significant first, computed with explicit
fuel so that the kernel can evaluate it (`decRepr_eq_digits` identifies it
with `Nat.digits 10`). -/
def natDigitsRev (fuel n : Nat) : List Nat :=
  match fuel with
  | 0 => []
  | fuel + 1 => if n = 0 then [] else n % 10 :: natDigitsRev fuel (n / 10)

/-- Decimal representation of a natural number, as Python `str(n)` prints it. -/
def decRepr (n : Nat) : List Char :=
  if n = 0 then ['0'] else ((natDigitsRev n n).map Nat.digitChar).reverse

/-- Python `f-string` zero padding to width 6, as in `f'PAT{idx:06d}'`
(the braces denote the Python placeholder in the source). -/
def pad6 (n : Nat) : List Char :=
  List.replicate (6 - (decRepr n).length) '0' ++ decRepr n

/-- Number of whitespace-separated words, as Python `len(s.split())`. -/
def pyWordCount (s : List Char) : Nat :=
  (((splitOnChar ' ' s).map pyStrip).filter (fun w => !w.isEmpty)).length

/-- `dict.get(k, default)`-style lookup in an association list keyed by strings. -/
def lookupA {β : Type} (m : List (List Char × β)) (k : List Char) : Option β :=
  (m.find? (fun p => p.1 == k)).map (·.2)

/-- `dict[k] = v`-style update of an association list (replace or append). -/
def setA {β : Type} (m : List (List Char × β)) (k : List Char) (v : β) :
    List (List Char × β) :=
  match m with
  | [] => [(k, v)]
  | p :: ps => if p.1 == k then (k, v) :: ps else p :: setA ps k v

/-- Fuel-driven worker for `dedupKeepFirstBy` (structural recursion so that
the kernel can evaluate it; any fuel at least the list length gives the
untruncated result, see `dedupAux_congr_fuel`). -/
def dedupAux {α κ : Type} [DecidableEq κ] (key : α → κ) : Nat → List α → List α
  | _, [] => []
  | 0, _ :: _ => []
  | fuel + 1, x :: xs =>
    x :: dedupAux key fuel (xs.filter (fun y => decide (key y ≠ key x)))

/-- `pandas` first-occurrence deduplication keyed by a function: used for
`Series.unique`, for Python-set accumulation (modelled in insertion order)
and for `DataFrame.drop_duplicates(subset=[...], keep='first')`. -/
def dedupKeepFirstBy {α κ : Type} [DecidableEq κ] (key : α → κ) (l : List α) : List α :=
  dedupAux key l.length l

namespace Pipeline

/-- Source: `normalize_text` in pipeline/load_data_to_pgadmin.py.  A `none`
value stands for a missing (`None`/`NaN`) field. -/
def normalize_text (value : Option (List Char)) (dflt : List Char) : List Char :=
  match value with
  | none => dflt
  | some s =>
    let t := pyStrip s
    if t = [] ∨ pyLower t = S "nan" then dflt else t

/-- Source: `derive_finding_severity` in pipeline/load_data_to_pgadmin.py. -/
def derive_finding_severity (labels : List Char) : List Char :=
  if labels = [] ∨ pyStrip (pyLower labels) = S "normal" ∨ pyStrip (pyLower labels) = [] then
    S "Normal"
  else
    let labelCount := ((splitOnChar '|' labels).filter (fun l => pyStrip l ≠ [])).length
    if labelCount = 1 then S "Mild"
    else if labelCount = 2 then S "Moderate"
    else if labelCount = 3 then S "Severe"
    else S "Critical"

/-- Source: `DIAGNOSIS_CATEGORY_MAP` in pipeline/load_data_to_pgadmin.py. -/
def DIAGNOSIS_CATEGORY_MAP : List (List Char × List Char) :=
  [(S "normal", S "Normal"), (S "pneumonia", S "Infectious"), (S "edema", S "Pulmonary"),
   (S "cardiomegaly", S "Cardiac"), (S "effusion", S "Pleural"),
   (S "atelectasis", S "Pulmonary"), (S "consolidation", S "Pulmonary"),
   (S "pneumothorax", S "Pleural"), (S "nodule", S "Mass"), (S "mass", S "Mass"),
   (S "emphysema", S "Chronic Pulmonary"), (S "fibrosis", S "Chronic Pulmonary"),
   (S "pleural_thickening", S "Pleural")]

/-- Source: `infer_diagnosis_category` in pipeline/load_data_to_pgadmin.py. -/
def infer_diagnosis_category (name : List Char) : List Char :=
  if name = [] then S "Unspecified"
  else
    match DIAGNOSIS_CATEGORY_MAP.find? (fun p => p.1 == pyStrip (pyLower name)) with
    | some p => p.2
    | none => S "Other"

/-- The three descriptive attributes of an anatomical region entry. -/
structure RegionMeta where
  code : List Char
  name : List Char
  bodySystem : List Char
deriving DecidableEq

/-- Source: `DEFAULT_REGION` in pipeline/load_data_to_pgadmin.py. -/
def DEFAULT_REGION : RegionMeta :=
  ⟨S "thorax", S "Thoracic Cavity", S "Respiratory"⟩

/-- Source: `REGION_KEYWORDS` in pipeline/load_data_to_pgadmin.py. -/
def REGION_KEYWORDS : List (List Char × RegionMeta) :=
  [(S "cardio", ⟨S "cardiac", S "Cardiac Region", S "Cardiovascular"⟩),
   (S "pleur", ⟨S "pleural", S "Pleural Space", S "Respiratory"⟩),
   (S "lung", ⟨S "lung", S "Lung Parenchyma", S "Respiratory"⟩),
   (S "nodule", ⟨S "pulmonary_mass", S "Pulmonary Mass Region", S "Respiratory"⟩),
   (S "mass", ⟨S "pulmonary_mass", S "Pulmonary Mass Region", S "Respiratory"⟩),
   (S "fibrosis", ⟨S "fibrotic", S "Fibrotic Tissue", S "Respiratory"⟩)]

/-- Source: `infer_region` in pipeline/load_data_to_pgadmin.py. -/
def infer_region (labelsText : List Char) : RegionMeta :=
  if labelsText ≠ [] then
    match REGION_KEYWORDS.find? (fun kr => containsSeq kr.1 (pyLower labelsText)) with
    | some kr => kr.2
    | none => DEFAULT_REGION
  else DEFAULT_REGION

/-- Source: `summarize_text` in pipeline/load_data_to_pgadmin.py
(`max_chars` is always left at its default 500 by the callers). -/
def summarize_text (text : List Char) : List Char :=
  if text = [] then []
  else
    let clean := pyStrip text
    if clean.length ≤ 500 then clean else clean.take 497 ++ S "..."


/-- First half of `ETLPipeline._generate_encounter_code`:
`(base_code or 'ENC').strip().replace(' ', '_') or 'ENC'`, truncated to 45. -/
def normalizeBase (baseCode : List Char) : List Char :=
  let s0 := if baseCode = [] then S "ENC" else baseCode
  let s1 := pyReplaceChar ' ' '_' (pyStrip s0)
  let s2 := if s1 = [] then S "ENC" else s1
  s2.take 45

/-- Second half of `ETLPipeline._generate_encounter_code`: the code emitted
for a normalized base whose tracker count is `count`. -/
def mkCode (normalized : List Char) (count : Nat) : List Char :=
  if count = 0 then normalized
  else
    let suffix := '-' :: decRepr (count + 1)
    normalized.take (50 - suffix.length) ++ suffix

/-- Source: `ETLPipeline._generate_encounter_code` in
pipeline/load_data_to_pgadmin.py; the tracker is the instance's
`encounter_code_tracker` dictionary, threaded explicitly. -/
def generate_encounter_code (tracker : List (List Char × Nat)) (baseCode : List Char) :
    List Char × List (List Char × Nat) :=
  let normalized := normalizeBase baseCode
  let count := (lookupA tracker normalized).getD 0
  (mkCode normalized count, setA tracker normalized (count + 1))

/-- The sequence of encounter codes one run produces from a sequence of base
codes (one `_generate_encounter_code` call per processed row). -/
def genCodes (tracker : List (List Char × Nat)) : List (List Char) → List (List Char)
  | [] => []
  | b :: bs =>
    (generate_encounter_code tracker b).1 ::
      genCodes (generate_encounter_code tracker b).2 bs

end Pipeline

namespace Pipeline

/-- Python `str.title()` (used for `norm_code.title()` in `get_projection`). -/
def pyTitleAux : Bool → List Char → List Char
  | _, [] => []
  | prevAlpha, c :: cs =>
    (if c.isAlpha then (if prevAlpha then c.toLower else c.toUpper) else c) ::
      pyTitleAux c.isAlpha cs

/-- Python `str.title()`. -/
def pyTitle (s : List Char) : List Char := pyTitleAux false s

/-- master.facility_master row. -/
structure FacRow where
  facility_id : Nat
  facility_code : List Char
  facility_name : List Char
  location : List Char
deriving DecidableEq

/-- master.modality_master row. -/
structure ModRow where
  modality_id : Nat
  modality_code : List Char
  modality_name : List Char
deriving DecidableEq

/-- master.projection_master row. -/
structure ProjRow where
  projection_id : Nat
  projection_code : List Char
  projection_name : List Char
  description : List Char
deriving DecidableEq

/-- master.anatomical_region_master row. -/
structure RegRow where
  region_id : Nat
  region_code : List Char
  region_name : List Char
  body_system : List Char
deriving DecidableEq

/-- master.diagnosis_master row. -/
structure DiagRow where
  diagnosis_id : Nat
  diagnosis_code : List Char
  diagnosis_name : List Char
  category : Option (List Char)
deriving DecidableEq

/-- master.language_registry row (written by schema setup, only read here). -/
structure LangRow where
  language_id : List Char
  language_code : List Char
deriving DecidableEq

/-- operational.patients row.  Identifiers are surrogate `uuid4` values,
modelled as naturals drawn from a counter; the SQL-computed age column is
omitted.  Dates are opaque ticks (`Nat`): no modelled property performs date
arithmetic. -/
structure PatRow where
  patient_id : Nat
  patient_code : List Char
  date_of_birth : Nat
  sex : List Char
  height : Option Int
  weight : Option Int
  geographic_location : List Char
  first_encounter_date : Nat
  last_encounter_date : Nat
  total_encounters : Nat
deriving DecidableEq

/-- operational.encounters row (random physician name and notes omitted). -/
structure EncRow where
  encounter_id : Nat
  patient_id : Nat
  facility_id : Nat
  encounter_code : List Char
  encounter_date : Nat
deriving DecidableEq

/-- operational.procedures row (random technician name and notes omitted). -/
structure ProcRow where
  procedure_id : Nat
  encounter_id : Nat
  modality_id : Nat
  projection_id : Nat
  region_id : Nat
  procedure_date : Nat
deriving DecidableEq

/-- operational.radiological_images row (`image_path` equals `image_code`
in the source insert and is omitted). -/
structure ImgRow where
  image_id : Nat
  procedure_id : Nat
  image_code : List Char
  image_filename : List Char
  studyid : Option (List Char)
deriving DecidableEq

/-- operational.clinical_reports row (random reviewer/review date omitted). -/
structure RepRow where
  report_id : Nat
  procedure_id : Nat
  language_id : List Char
  report_text : List Char
  word_count : Nat
deriving DecidableEq

/-- operational.findings row (random confidence score omitted;
`impression_text` omitted). -/
structure FindRow where
  finding_id : Nat
  procedure_id : Nat
  findings_text : List Char
  finding_severity : List Char
  abnormality_detected : Bool
deriving DecidableEq

/-- operational.procedure_diagnosis row (random confidence omitted). -/
structure PdRow where
  pd_id : Nat
  procedure_id : Nat
  diagnosis_id : Nat
  diagnosis_sequence : Nat
  is_primary : Bool
deriving DecidableEq

/-- The operational database schema touched by the loader. -/
structure Tables where
  facility_master : List FacRow
  modality_master : List ModRow
  projection_master : List ProjRow
  anatomical_region_master : List RegRow
  diagnosis_master : List DiagRow
  language_registry : List LangRow
  patients : List PatRow
  encounters : List EncRow
  procedures : List ProcRow
  radiological_images : List ImgRow
  clinical_reports : List RepRow
  findings : List FindRow
  procedure_diagnosis : List PdRow
deriving DecidableEq

/-- `ETLPipeline.stats` (the `error` key set by `run`'s outer handler is
`errorMsg`). -/
structure Stats where
  total : Nat
  success : Nat
  failed : Nat
  errors : List (Nat × List Char)
  errorMsg : Option (List Char)
deriving DecidableEq

/-- Combined state of the single database session (committed snapshot plus
current in-transaction view), the uuid supply, the running database-statement
index consumed by the failure oracle, the `MasterDataManager` caches, the
encounter-code tracker and the statistics. -/
structure PState where
  committed : Tables
  cur : Tables
  uuidCtr : Nat
  opIdx : Nat
  facility_cache : List (List Char × Nat)
  modality_cache : List (List Char × Nat)
  projection_cache : List (List Char × Nat)
  region_cache : List (List Char × Nat)
  diagnosis_cache : List (List Char × Nat)
  encounter_code_tracker : List (List Char × Nat)
  stats : Stats
deriving DecidableEq

/-- Environment: the failure oracle injecting the exceptions real database
statements can raise (indexed by statement count), and the wall clock. -/
structure Env where
  fail : Nat → Option (List Char)
  now : Nat

/-- The environment in which no database statement raises. -/
def noFail (env : Env) : Prop := ∀ n, env.fail n = none

/-- `DatabaseManager.execute` on a mutating statement: raises when the oracle
says so, otherwise applies the write to the in-transaction view. -/
def dbExecute (env : Env) (w : Tables → Tables) (st : PState) :
    Except (List Char) Unit × PState :=
  match env.fail st.opIdx with
  | some msg => (.error msg, { st with opIdx := st.opIdx + 1 })
  | none => (.ok (), { st with cur := w st.cur, opIdx := st.opIdx + 1 })

/-- `DatabaseManager.fetch_one`: runs a query and swallows every exception,
returning `None` on failure. -/
def dbFetchOne {α : Type} (env : Env) (q : Tables → Option α) (st : PState) :
    Option α × PState :=
  match env.fail st.opIdx with
  | some _ => (none, { st with opIdx := st.opIdx + 1 })
  | none => (q st.cur, { st with opIdx := st.opIdx + 1 })

/-- `DatabaseManager.commit`: publish the in-transaction view; on failure it
rolls back and reports `False` (it never raises). -/
def dbCommit (env : Env) (st : PState) : Bool × PState :=
  match env.fail st.opIdx with
  | some _ => (false, { st with cur := st.committed, opIdx := st.opIdx + 1 })
  | none => (true, { st with committed := st.cur, opIdx := st.opIdx + 1 })

/-- `DatabaseManager.rollback`: discard the in-transaction view. -/
def dbRollback (st : PState) : PState :=
  { st with cur := st.committed }

/-- Sequencing of fallible steps (exception propagation). -/
def andThen {α β : Type} (r : Except (List Char) α × PState)
    (f : α → PState → Except (List Char) β × PState) :
    Except (List Char) β × PState :=
  match r with
  | (.ok a, st) => f a st
  | (.error e, st) => (.error e, st)

/-- The `except` clause shared by every `MasterDataManager.get_*` method:
roll back the resolver's transaction and re-raise. -/
def catchReraise {α : Type} (r : Except (List Char) α × PState) :
    Except (List Char) α × PState :=
  match r with
  | (.error e, st) => (.error e, dbRollback st)
  | ok => ok

/-- `str(uuid.uuid4())`: a fresh surrogate identifier from the supply. -/
def freshUuid (st : PState) : Nat × PState :=
  (st.uuidCtr, { st with uuidCtr := st.uuidCtr + 1 })

/-- Source: `MasterDataManager.get_facility`. -/
def get_facility (env : Env) (name location : List Char) (st : PState) :
    Except (List Char) Nat × PState :=
  let key := S "fac:" ++ name
  match lookupA st.facility_cache key with
  | some fid => (.ok fid, st)
  | none =>
    catchReraise (
      let code := (pyLower (pyReplaceChar ' ' '_' name)).take 50
      let (result, st) := dbFetchOne env
        (fun t => (t.facility_master.find? (fun r => r.facility_code == code)).map
          (·.facility_id)) st
      match result with
      | some fid =>
        (.ok fid, { st with facility_cache := setA st.facility_cache key fid })
      | none =>
        let (fid, st) := freshUuid st
        andThen (dbExecute env (fun t =>
            { t with facility_master :=
                t.facility_master ++ [⟨fid, code, name, location⟩] }) st)
          (fun _ st =>
            let (_, st) := dbCommit env st
            (.ok fid, { st with facility_cache := setA st.facility_cache key fid })))

/-- Source: `MasterDataManager.get_modality`. -/
def get_modality (env : Env) (code : List Char) (st : PState) :
    Except (List Char) Nat × PState :=
  let key := S "mod:" ++ code
  match lookupA st.modality_cache key with
  | some mid => (.ok mid, st)
  | none =>
    catchReraise (
      let mnames : List (List Char × List Char) :=
        [(S "DX", S "Digital"), (S "CR", S "Computed"),
         (S "RF", S "Radio"), (S "DR", S "Digital")]
      let name := (lookupA mnames code).getD (S "Modality " ++ code)
      let (result, st) := dbFetchOne env
        (fun t => (t.modality_master.find? (fun r => r.modality_code == code)).map
          (·.modality_id)) st
      match result with
      | some mid =>
        (.ok mid, { st with modality_cache := setA st.modality_cache key mid })
      | none =>
        let (mid, st) := freshUuid st
        andThen (dbExecute env (fun t =>
            { t with modality_master := t.modality_master ++ [⟨mid, code, name⟩] }) st)
          (fun _ st =>
            let (_, st) := dbCommit env st
            (.ok mid, { st with modality_cache := setA st.modality_cache key mid })))

/-- Source: `PROJECTION_METADATA` in pipeline/load_data_to_pgadmin.py,
as `(name, description)` pairs. -/
def PROJECTION_METADATA : List (List Char × (List Char × List Char)) :=
  [(S "PA", (S "Posteroanterior", S "Frontal PA chest projection")),
   (S "AP", (S "Anteroposterior", S "Frontal AP projection")),
   (S "LATERAL", (S "Lateral", S "Side lateral projection")),
   (S "OBLIQUE", (S "Oblique", S "Oblique angle projection"))]

/-- Source: `MasterDataManager.get_projection`. -/
def get_projection (env : Env) (code : List Char) (st : PState) :
    Except (List Char) Nat × PState :=
  let stripped := pyStrip (if code = [] then S "UNKNOWN" else code)
  let norm_code := if pyUpper stripped = [] then S "UNKNOWN" else pyUpper stripped
  let key := S "proj:" ++ norm_code
  match lookupA st.projection_cache key with
  | some pid => (.ok pid, st)
  | none =>
    catchReraise (
      let (result, st) := dbFetchOne env
        (fun t => (t.projection_master.find? (fun r => r.projection_code == norm_code)).map
          (·.projection_id)) st
      match result with
      | some pid =>
        (.ok pid, { st with projection_cache := setA st.projection_cache key pid })
      | none =>
        let (pid, st) := freshUuid st
        let meta := lookupA PROJECTION_METADATA norm_code
        let name := (meta.map (·.1)).getD (pyTitle norm_code)
        let descr := (meta.map (·.2)).getD (norm_code ++ S " projection")
        andThen (dbExecute env (fun t =>
            { t with projection_master :=
                t.projection_master ++ [⟨pid, norm_code, name, descr⟩] }) st)
          (fun _ st =>
            let (_, st) := dbCommit env st
            (.ok pid, { st with projection_cache := setA st.projection_cache key pid })))

/-- Source: `MasterDataManager.get_region`. -/
def get_region (env : Env) (code name body_system : List Char) (st : PState) :
    Except (List Char) Nat × PState :=
  let norm_code := (pyLower (pyStrip (if code = [] then DEFAULT_REGION.code else code))).take 50
  let key := S "region:" ++ norm_code
  match lookupA st.region_cache key with
  | some rid => (.ok rid, st)
  | none =>
    let region_name := if name = [] then DEFAULT_REGION.name else name
    let body_sys := if body_system = [] then DEFAULT_REGION.bodySystem else body_system
    catchReraise (
      let (result, st) := dbFetchOne env
        (fun t => (t.anatomical_region_master.find?
            (fun r => r.region_code == norm_code)).map (·.region_id)) st
      match result with
      | some rid =>
        (.ok rid, { st with region_cache := setA st.region_cache key rid })
      | none =>
        let (rid, st) := freshUuid st
        andThen (dbExecute env (fun t =>
            { t with anatomical_region_master :=
                t.anatomical_region_master ++ [⟨rid, norm_code, region_name, body_sys⟩] }) st)
          (fun _ st =>
            let (_, st) := dbCommit env st
            (.ok rid, { st with region_cache := setA st.region_cache key rid })))

/-- Source: `MasterDataManager.get_diagnosis`. -/
def get_diagnosis (env : Env) (name : List Char) (st : PState) :
    Except (List Char) Nat × PState :=
  let key := S "diag:" ++ name
  match lookupA st.diagnosis_cache key with
  | some did => (.ok did, st)
  | none =>
    catchReraise (
      let code := (pyLower (pyReplaceChar ' ' '_' name)).take 50
      let category := infer_diagnosis_category name
      let (result, st) := dbFetchOne env
        (fun t => (t.diagnosis_master.find? (fun r => r.diagnosis_code == code)).map
          (fun r => (r.diagnosis_id, r.category))) st
      match result with
      | some (did, existing_category) =>
        andThen
          (if (existing_category.getD []) = [] ∧ category ≠ [] then
            andThen (dbExecute env (fun t =>
                { t with diagnosis_master := t.diagnosis_master.map (fun r =>
                    if r.diagnosis_id == did then { r with category := some category }
                    else r) }) st)
              (fun _ st =>
                let (_, st) := dbCommit env st
                (.ok (), st))
          else (.ok (), st))
          (fun _ st =>
            (.ok did, { st with diagnosis_cache := setA st.diagnosis_cache key did }))
      | none =>
        let (did, st) := freshUuid st
        andThen (dbExecute env (fun t =>
            { t with diagnosis_master :=
                t.diagnosis_master ++ [⟨did, code, name, some category⟩] }) st)
          (fun _ st =>
            let (_, st) := dbCommit env st
            (.ok did, { st with diagnosis_cache := setA st.diagnosis_cache key did })))

/-- One input record, as `ETLPipeline.process_row` receives it from the
dataframe; `none` marks a missing (`None`/`NaN`) value.  The date/timestamp
and numeric columns carry the values `parse_date`/`parse_datetime`/
`safe_int_value` produce (those parsers absorb every malformed value into
`None`; the pandas parsing itself is an external collaborator). -/
structure Row where
  PatientID : Option (List Char)
  DateOfBirth : Option Nat
  StudyDate : Option Nat
  StudyID : Option (List Char)
  PatientSex : Option (List Char)
  PatientHeight : Option Int
  PatientWeight : Option Int
  Location : Option (List Char)
  InstitutionName : Option (List Char)
  Modality : Option (List Char)
  Projection : Option (List Char)
  ImageID : Option (List Char)
  Report : Option (List Char)
  Findings : Option (List Char)
  Impression : Option (List Char)
  Labels : Option (List Char)
deriving DecidableEq

/-- The `except` clause of `ETLPipeline.process_row` (and its success tail):
on success count the row; on exception roll back, count the failure and
record the row index with the error text truncated to 200 characters. -/
def rowCatch (idx : Nat) (r : Except (List Char) Unit × PState) : Bool × PState :=
  match r with
  | (.ok _, st) =>
    (true, { st with stats := { st.stats with success := st.stats.success + 1 } })
  | (.error e, st) =>
    let st := dbRollback st
    (false, { st with stats := { st.stats with
        failed := st.stats.failed + 1,
        errors := st.stats.errors ++ [(idx, e.take 200)] } })

/-- The `for seq, diag in enumerate(diagnoses, 1)` loop of `process_row`. -/
def insertDiagnosesLoop (env : Env) (procid : Nat) :
    List (List Char) → Nat → PState → Except (List Char) Unit × PState
  | [], _, st => (.ok (), st)
  | diag :: rest, seq, st =>
    andThen (get_diagnosis env diag st) (fun did st =>
      let (pdid, st) := freshUuid st
      andThen (dbExecute env (fun t =>
          { t with procedure_diagnosis := t.procedure_diagnosis ++
              [⟨pdid, procid, did, seq, seq == 1⟩] }) st)
        (fun _ st => insertDiagnosesLoop env procid rest (seq + 1) st))

/-- Source: `ETLPipeline.process_row` in pipeline/load_data_to_pgadmin.py. -/
def process_row (env : Env) (row : Row) (idx : Nat) (st : PState) : Bool × PState :=
  let pid := (pyStrip (row.PatientID.getD (S "PAT" ++ pad6 idx))).take 50
  let dob := row.DateOfBirth.getD 0
  let study_dt := row.StudyDate.getD env.now
  let pidIdx := pid ++ '-' :: decRepr idx
  let study_identifier := normalize_text row.StudyID pidIdx
  let sex := (normalize_text row.PatientSex (S "M")).take 10
  let height := row.PatientHeight
  let weight := row.PatientWeight
  let location := (normalize_text row.Location (S "Unknown")).take 255
  let inst := (normalize_text row.InstitutionName (S "Hospital")).take 255
  let modCode := (normalize_text row.Modality (S "DX")).take 20
  let projection_code := pyUpper (normalize_text row.Projection (S "PA"))
  let imgid := (normalize_text row.ImageID (S "IMG" ++ pad6 idx)).take 100
  let report := normalize_text row.Report []
  let findings := normalize_text row.Findings []
  let impression0 := normalize_text row.Impression []
  let impression :=
    if impression0 = [] ∧ findings ≠ [] then
      S "Impression autogenerated from findings: " ++ findings.take 200
    else impression0
  let labels := normalize_text row.Labels []
  rowCatch idx (
    andThen (get_facility env inst location st) (fun fid st =>
    andThen (get_modality env modCode st) (fun mid st =>
    andThen (get_projection env projection_code st) (fun projection_id st =>
    let region_source := if labels ≠ [] then labels
      else if findings ≠ [] then findings else impression
    let region_meta := infer_region region_source
    andThen (get_region env region_meta.code region_meta.name region_meta.bodySystem st)
      (fun region_id st =>
    let (result, st) := dbFetchOne env
      (fun t => (t.patients.find? (fun p => p.patient_code == pid)).map
        (·.patient_id)) st
    andThen
      (match result with
       | some patid => (.ok patid, st)
       | none =>
         let (patid, st) := freshUuid st
         andThen (dbExecute env (fun t => { t with patients := t.patients ++
             [⟨patid, pid, dob, sex, height, weight, location, study_dt, study_dt, 1⟩] }) st)
           (fun _ st => (.ok patid, st)))
      (fun patid st =>
    let base_encounter_code :=
      if study_identifier ≠ [] then study_identifier.take 50 else pidIdx
    let genc := generate_encounter_code st.encounter_code_tracker base_encounter_code
    let encounter_code := genc.1
    let st := { st with encounter_code_tracker := genc.2 }
    let (encid, st) := freshUuid st
    andThen (dbExecute env (fun t => { t with encounters := t.encounters ++
        [⟨encid, patid, fid, encounter_code, study_dt⟩] }) st) (fun _ st =>
    let (procid, st) := freshUuid st
    andThen (dbExecute env (fun t => { t with procedures := t.procedures ++
        [⟨procid, encid, mid, projection_id, region_id, study_dt⟩] }) st) (fun _ st =>
    let imgfn := if imgid.contains '/' then (splitOnChar '/' imgid).getLastD [] else imgid
    let (imgrowid, st) := freshUuid st
    andThen (dbExecute env (fun t =>
        { t with radiological_images := t.radiological_images ++
            [⟨imgrowid, procid, imgid, imgfn,
              if study_identifier = [] then none else some study_identifier⟩] }) st)
      (fun _ st =>
    andThen
      (if report ≠ [] then
        let (result, st) := dbFetchOne env
          (fun t => (t.language_registry.find?
              (fun l => l.language_code == S "en")).map (·.language_id)) st
        let lang_id := result.getD []
        if lang_id ≠ [] then
          let word_count := pyWordCount report
          let (repid, st) := freshUuid st
          dbExecute env (fun t => { t with clinical_reports := t.clinical_reports ++
              [⟨repid, procid, lang_id, report, word_count⟩] }) st
        else (.ok (), st)
      else (.ok (), st))
      (fun _ st =>
    let findings_text := if findings ≠ [] then findings
      else S "No abnormal findings reported."
    let severity := derive_finding_severity labels
    let abnormality := !(severity == S "Normal")
    let (findid, st) := freshUuid st
    andThen (dbExecute env (fun t => { t with findings := t.findings ++
        [⟨findid, procid, findings_text, severity, abnormality⟩] }) st) (fun _ st =>
    let diagnoses := ((splitOnChar '|' labels).map pyStrip).filter (fun d => !d.isEmpty)
    insertDiagnosesLoop env procid diagnoses 1 st)))))))))))

/-- Generic preload loop: resolve every element, re-raising the first error
(`preload_master_data` re-raises out of its shared `try`). -/
def forEachResolve {α : Type} (f : α → PState → Except (List Char) Nat × PState) :
    List α → PState → Except (List Char) Unit × PState
  | [], st => (.ok (), st)
  | x :: xs, st => andThen (f x st) (fun _ st => forEachResolve f xs st)

/-- `df[df['InstitutionName'] == inst]['Location'].iloc[0]`, converted with
`str(...)` (a missing value prints as `nan`). -/
def locOfFirst (df : List Row) (inst : List Char) : List Char :=
  match df.find? (fun r => r.InstitutionName == some inst) with
  | some r =>
    match r.Location with
    | some l => l
    | none => S "nan"
  | none => S "nan"

/-- Source: `ETLPipeline.preload_master_data`. -/
def preload_master_data (env : Env) (df : List Row) (st : PState) :
    Except (List Char) Unit × PState :=
  let institutions := dedupKeepFirstBy id (df.filterMap (·.InstitutionName))
  andThen (forEachResolve
      (fun inst st => get_facility env (pyStrip inst) (pyStrip (locOfFirst df inst)) st)
      institutions st) (fun _ st =>
  let modalities := dedupKeepFirstBy id (df.filterMap (·.Modality))
  andThen (forEachResolve (fun m st => get_modality env (pyStrip m) st) modalities st)
    (fun _ st =>
  let projections := dedupKeepFirstBy id (df.filterMap (·.Projection))
  andThen (forEachResolve (fun p st => get_projection env (pyStrip p) st) projections st)
    (fun _ st =>
  let all_diags := dedupKeepFirstBy id
    ((dedupKeepFirstBy id (df.filterMap (·.Labels))).flatMap
      (fun ls => (splitOnChar '|' ls).map pyStrip))
  andThen (forEachResolve (fun d st =>
      if d ≠ [] then get_diagnosis env d st else (.ok 0, st)) all_diags st)
    (fun _ st =>
  let regionsRaw := (dedupKeepFirstBy id (df.filterMap (·.Labels))).map infer_region
  let unique_regions :=
    if regionsRaw = [] then [DEFAULT_REGION]
    else dedupKeepFirstBy (·.code) regionsRaw
  forEachResolve (fun r st => get_region env r.code r.name r.bodySystem st)
    unique_regions st))))

/-- The per-batch inner loop of `ETLPipeline.run` (row numbers are global and
1-based, as `batch_start + idx_in_batch`). -/
def processBatch (env : Env) : List Row → Nat → PState → PState
  | [], _, st => st
  | r :: rs, rowNum, st => processBatch env rs (rowNum + 1) (process_row env r rowNum st).2

/-- The batching loop of `ETLPipeline.run`: process `batchSize` rows, commit,
stop on a failed commit.  `fuel` bounds the number of iterations; the caller
passes the row count, which suffices for every positive batch size. -/
def runBatches (env : Env) (batchSize : Nat) :
    Nat → List Row → Nat → PState → PState
  | 0, _, _, st => st
  | _ + 1, [], _, st => st
  | fuel + 1, rows@(_ :: _), rowNum, st =>
    let batch := rows.take batchSize
    let st := processBatch env batch rowNum st
    match dbCommit env st with
    | (true, st) => runBatches env batchSize fuel (rows.drop batchSize) (rowNum + batch.length) st
    | (false, st) => st

/-- Source: `ETLPipeline.run` (connection and CSV loading are external
collaborators: the dataframe is given; a raised error is recorded under the
stats `error` key and the stats returned). -/
def ETLrun (env : Env) (df : List Row) (batchSize : Nat) (st : PState) : PState :=
  let st := { st with stats := { st.stats with total := df.length } }
  match preload_master_data env df st with
  | (.error e, st) =>
    { st with stats := { st.stats with errorMsg := some e } }
  | (.ok _, st) => runBatches env batchSize df.length df 1 st

/-- An empty operational database. -/
def emptyTables : Tables :=
  ⟨[], [], [], [], [], [], [], [], [], [], [], [], []⟩

/-- The initial state of one `ETLPipeline` run against a given committed
database snapshot. -/
def initState (t : Tables) : PState :=
  ⟨t, t, 0, 0, [], [], [], [], [], [], ⟨0, 0, 0, [], none⟩⟩

end Pipeline

namespace Analytics

/-- analytics.dim_patient row: warehouse serial surrogate key, the
operational identity used for lookups, and the mutable attribute the upsert
refreshes (`age`, dates and `updated_at` are omitted descriptive copies). -/
structure DimPat where
  patient_sk : Int
  patient_id : Nat
  total_encounters : Nat
deriving DecidableEq

/-- analytics.dim_facility row. -/
structure DimFac where
  facility_sk : Int
  facility_id : Nat
  facility_name : List Char
  location : List Char
deriving DecidableEq

/-- analytics.dim_modality row. -/
structure DimMod where
  modality_sk : Int
  modality_id : Nat
  modality_name : List Char
deriving DecidableEq

/-- analytics.dim_diagnosis row. -/
structure DimDiag where
  diagnosis_sk : Int
  diagnosis_id : Nat
  diagnosis_name : List Char
  category : Option (List Char)
deriving DecidableEq

/-- analytics.fact_procedure row (`loaded_at` and the unmodelled random
confidence score are omitted).  `diagnosis_sk` is nullable because
dwh/load_fact_table.py writes NULL where dwh/etl_analytics.py writes a
numeric `-1` sentinel. -/
structure FactProc where
  encounter_id : Nat
  procedure_id : Nat
  patient_sk : Int
  facility_sk : Int
  modality_sk : Int
  diagnosis_sk : Option Int
  encounter_date : Nat
  projection_name : Option (List Char)
  region_name : Option (List Char)
  finding_severity : Option (List Char)
  abnormality_detected : Option Bool
  total_images : Nat
  report_word_count : Nat
deriving DecidableEq

/-- analytics.fact_language_usage row (audio columns are never written by the
operational loader and are omitted). -/
structure FactLang where
  report_id : Nat
  procedure_id : Nat
  language_code : List Char
  word_count : Nat
deriving DecidableEq

/-- The analytics warehouse schema, with the serial generator feeding the
`*_sk` surrogate-key columns. -/
structure TargetDB where
  dim_patient : List DimPat
  dim_facility : List DimFac
  dim_modality : List DimMod
  dim_diagnosis : List DimDiag
  fact_procedure : List FactProc
  fact_language_usage : List FactLang
  skCtr : Int
deriving DecidableEq

/-- `TwoDatabaseAnalyticsETL.stats` (durations omitted; the top-level
`error` key set by `run` is `errorMsg`). -/
structure AStats where
  dimensions_loaded : List (List Char × Nat)
  facts_loaded : List (List Char × Nat)
  errors : List (List Char)
  errorMsg : Option (List Char)
deriving DecidableEq

/-- The two-database session state: source (read-only), target with its
committed snapshot and in-transaction view, the statement index consumed by
the failure oracle, and the statistics. -/
structure AState where
  src : Pipeline.Tables
  tgtCommitted : TargetDB
  tgt : TargetDB
  opIdx : Nat
  stats : AStats
deriving DecidableEq

/-- Environment of one analytics run: failure oracle and wall clock. -/
structure AEnv where
  fail : Nat → Option (List Char)
  now : Nat

/-- The environment in which no database statement raises. -/
def aNoFail (env : AEnv) : Prop := ∀ n, env.fail n = none

/-- `incremental` or `full` refresh. -/
inductive EtlMode where
  | incremental
  | full
deriving DecidableEq

/-- Sequencing of fallible steps over the analytics state. -/
def andThenA {α β : Type} (r : Except (List Char) α × AState)
    (f : α → AState → Except (List Char) β × AState) :
    Except (List Char) β × AState :=
  match r with
  | (.ok a, st) => f a st
  | (.error e, st) => (.error e, st)

/-- A mutating statement on the target cursor (raises when the oracle says
so). -/
def aExec (env : AEnv) (w : TargetDB → TargetDB) (st : AState) :
    Except (List Char) Unit × AState :=
  match env.fail st.opIdx with
  | some msg => (.error msg, { st with opIdx := st.opIdx + 1 })
  | none => (.ok (), { st with tgt := w st.tgt, opIdx := st.opIdx + 1 })

/-- A source-cursor extraction (`source_cur.execute` plus iteration); its
exceptions propagate. -/
def aQuerySrc {α : Type} (env : AEnv) (q : Pipeline.Tables → α) (st : AState) :
    Except (List Char) α × AState :=
  match env.fail st.opIdx with
  | some msg => (.error msg, { st with opIdx := st.opIdx + 1 })
  | none => (.ok (q st.src), { st with opIdx := st.opIdx + 1 })

/-- A target-cursor lookup (`target_cur.execute` + `fetchone`); unlike the
operational loader's `fetch_one` wrapper, its exceptions propagate. -/
def aFetchTgt {α : Type} (env : AEnv) (q : TargetDB → Option α) (st : AState) :
    Except (List Char) (Option α) × AState :=
  match env.fail st.opIdx with
  | some msg => (.error msg, { st with opIdx := st.opIdx + 1 })
  | none => (.ok (q st.tgt), { st with opIdx := st.opIdx + 1 })

/-- `target_conn.commit()` (raises on failure). -/
def aCommit (env : AEnv) (st : AState) : Except (List Char) Unit × AState :=
  match env.fail st.opIdx with
  | some msg => (.error msg, { st with opIdx := st.opIdx + 1 })
  | none => (.ok (), { st with tgtCommitted := st.tgt, opIdx := st.opIdx + 1 })

/-- `target_conn.rollback()`. -/
def aRollback (st : AState) : AState :=
  { st with tgt := st.tgtCommitted }

/-- The `except` clause shared by every `load_*` method: record
`"<table>: <error>"` in the aggregate error list, roll back the target
transaction, and re-raise. -/
def loadCatch (nm : List Char) (r : Except (List Char) Nat × AState) :
    Except (List Char) Nat × AState :=
  match r with
  | (.error e, st) =>
    (.error e, aRollback { st with stats :=
        { st.stats with errors := st.stats.errors ++ [nm ++ S ": " ++ e] } })
  | ok => ok

/-- Per-row upsert loop of a dimension or fact load whose row failures abort
the whole load (every `load_dim_*` and `load_fact_language_usage`). -/
def loadRows {α : Type} (env : AEnv) (upsert : α → TargetDB → TargetDB) :
    List α → AState → Except (List Char) Unit × AState
  | [], st => (.ok (), st)
  | r :: rs, st =>
    andThenA (aExec env (upsert r) st) (fun _ st => loadRows env upsert rs st)

/-- `INSERT ... ON CONFLICT (patient_id) DO UPDATE` of load_dim_patient. -/
def upsertDimPatient (p : Pipeline.PatRow) (t : TargetDB) : TargetDB :=
  if (t.dim_patient.find? (fun d => d.patient_id == p.patient_id)).isSome then
    { t with dim_patient := t.dim_patient.map (fun d =>
        if d.patient_id == p.patient_id then
          { d with total_encounters := p.total_encounters }
        else d) }
  else
    { t with
      dim_patient := t.dim_patient ++ [⟨t.skCtr, p.patient_id, p.total_encounters⟩],
      skCtr := t.skCtr + 1 }

/-- `INSERT ... ON CONFLICT (facility_id) DO UPDATE` of load_dim_facility. -/
def upsertDimFacility (f : Pipeline.FacRow) (t : TargetDB) : TargetDB :=
  if (t.dim_facility.find? (fun d => d.facility_id == f.facility_id)).isSome then
    { t with dim_facility := t.dim_facility.map (fun d =>
        if d.facility_id == f.facility_id then
          { d with facility_name := f.facility_name, location := f.location }
        else d) }
  else
    { t with
      dim_facility := t.dim_facility ++
        [⟨t.skCtr, f.facility_id, f.facility_name, f.location⟩],
      skCtr := t.skCtr + 1 }

/-- `INSERT ... ON CONFLICT (modality_id) DO UPDATE` of load_dim_modality. -/
def upsertDimModality (m : Pipeline.ModRow) (t : TargetDB) : TargetDB :=
  if (t.dim_modality.find? (fun d => d.modality_id == m.modality_id)).isSome then
    { t with dim_modality := t.dim_modality.map (fun d =>
        if d.modality_id == m.modality_id then
          { d with modality_name := m.modality_name }
        else d) }
  else
    { t with
      dim_modality := t.dim_modality ++ [⟨t.skCtr, m.modality_id, m.modality_name⟩],
      skCtr := t.skCtr + 1 }

/-- `INSERT ... ON CONFLICT (diagnosis_id) DO UPDATE` of load_dim_diagnosis. -/
def upsertDimDiagnosis (d0 : Pipeline.DiagRow) (t : TargetDB) : TargetDB :=
  if (t.dim_diagnosis.find? (fun d => d.diagnosis_id == d0.diagnosis_id)).isSome then
    { t with dim_diagnosis := t.dim_diagnosis.map (fun d =>
        if d.diagnosis_id == d0.diagnosis_id then
          { d with diagnosis_name := d0.diagnosis_name, category := d0.category }
        else d) }
  else
    { t with
      dim_diagnosis := t.dim_diagnosis ++
        [⟨t.skCtr, d0.diagnosis_id, d0.diagnosis_name, d0.category⟩],
      skCtr := t.skCtr + 1 }

/-- Source: `TwoDatabaseAnalyticsETL.load_dim_patient` (the truncate's
CASCADE effect on dependent tables is schema-defined and out of scope). -/
def load_dim_patient (mode : EtlMode) (env : AEnv) (st : AState) :
    Except (List Char) Nat × AState :=
  loadCatch (S "dim_patient") (
    andThenA
      (if mode = .full then aExec env (fun t => { t with dim_patient := [] }) st
       else (.ok (), st)) (fun _ st =>
    andThenA (aQuerySrc env (fun s => s.patients) st) (fun rows st =>
    andThenA (loadRows env upsertDimPatient rows st) (fun _ st =>
    andThenA (aCommit env st) (fun _ st =>
    (.ok rows.length, { st with stats := { st.stats with dimensions_loaded :=
        st.stats.dimensions_loaded ++ [(S "dim_patient", rows.length)] } }))))))

/-- Source: `TwoDatabaseAnalyticsETL.load_dim_facility`. -/
def load_dim_facility (mode : EtlMode) (env : AEnv) (st : AState) :
    Except (List Char) Nat × AState :=
  loadCatch (S "dim_facility") (
    andThenA
      (if mode = .full then aExec env (fun t => { t with dim_facility := [] }) st
       else (.ok (), st)) (fun _ st =>
    andThenA (aQuerySrc env (fun s => s.facility_master) st) (fun rows st =>
    andThenA (loadRows env upsertDimFacility rows st) (fun _ st =>
    andThenA (aCommit env st) (fun _ st =>
    (.ok rows.length, { st with stats := { st.stats with dimensions_loaded :=
        st.stats.dimensions_loaded ++ [(S "dim_facility", rows.length)] } }))))))

/-- Source: `TwoDatabaseAnalyticsETL.load_dim_modality`. -/
def load_dim_modality (mode : EtlMode) (env : AEnv) (st : AState) :
    Except (List Char) Nat × AState :=
  loadCatch (S "dim_modality") (
    andThenA
      (if mode = .full then aExec env (fun t => { t with dim_modality := [] }) st
       else (.ok (), st)) (fun _ st =>
    andThenA (aQuerySrc env (fun s => s.modality_master) st) (fun rows st =>
    andThenA (loadRows env upsertDimModality rows st) (fun _ st =>
    andThenA (aCommit env st) (fun _ st =>
    (.ok rows.length, { st with stats := { st.stats with dimensions_loaded :=
        st.stats.dimensions_loaded ++ [(S "dim_modality", rows.length)] } }))))))

/-- Source: `TwoDatabaseAnalyticsETL.load_dim_diagnosis`. -/
def load_dim_diagnosis (mode : EtlMode) (env : AEnv) (st : AState) :
    Except (List Char) Nat × AState :=
  loadCatch (S "dim_diagnosis") (
    andThenA
      (if mode = .full then aExec env (fun t => { t with dim_diagnosis := [] }) st
       else (.ok (), st)) (fun _ st =>
    andThenA (aQuerySrc env (fun s => s.diagnosis_master) st) (fun rows st =>
    andThenA (loadRows env upsertDimDiagnosis rows st) (fun _ st =>
    andThenA (aCommit env st) (fun _ st =>
    (.ok rows.length, { st with stats := { st.stats with dimensions_loaded :=
        st.stats.dimensions_loaded ++ [(S "dim_diagnosis", rows.length)] } }))))))

/-- One row of the fact_procedure source extraction query. -/
structure FactSrcRow where
  encounter_id : Nat
  procedure_id : Nat
  patient_id : Nat
  facility_id : Nat
  modality_id : Nat
  diagnosis_id : Option Nat
  encounter_date : Nat
  projection_name : Option (List Char)
  region_name : Option (List Char)
  finding_severity : Option (List Char)
  abnormality_detected : Option Bool
  total_images : Nat
  report_word_count : Nat
deriving DecidableEq

/-- SQL LEFT JOIN against a child table: all matches, or a single NULL row. -/
def leftJoin {β : Type} (l : List β) (p : β → Bool) : List (Option β) :=
  match l.filter p with
  | [] => [none]
  | ms => ms.map some

/-- The fact_procedure extraction query of `load_fact_procedure`
(encounters ⋈ procedures, LEFT JOINs to findings / primary
procedure_diagnosis / clinical_reports, master-name lookups by unique id,
`COUNT(DISTINCT image_id)` per group, optional encounter-date cutoff). -/
def extract_fact_procedure (s : Pipeline.Tables) (cutoff : Option Nat) :
    List FactSrcRow :=
  (s.encounters.filter (fun e =>
      match cutoff with
      | none => true
      | some c => decide (c ≤ e.encounter_date))).flatMap (fun e =>
  (s.procedures.filter (fun pr => pr.encounter_id == e.encounter_id)).flatMap (fun pr =>
  (leftJoin s.findings (fun fi => fi.procedure_id == pr.procedure_id)).flatMap (fun fi =>
  (leftJoin s.procedure_diagnosis
      (fun pd => pd.procedure_id == pr.procedure_id && pd.is_primary)).flatMap (fun pd =>
  (leftJoin s.clinical_reports (fun cr => cr.procedure_id == pr.procedure_id)).map (fun cr =>
    { encounter_id := e.encounter_id
      procedure_id := pr.procedure_id
      patient_id := e.patient_id
      facility_id := e.facility_id
      modality_id := pr.modality_id
      diagnosis_id := pd.map (·.diagnosis_id)
      encounter_date := e.encounter_date
      projection_name := (s.projection_master.find?
          (fun pm => pm.projection_id == pr.projection_id)).map (·.projection_name)
      region_name := (s.anatomical_region_master.find?
          (fun rm => rm.region_id == pr.region_id)).map (·.region_name)
      finding_severity := fi.map (·.finding_severity)
      abnormality_detected := fi.map (·.abnormality_detected)
      total_images := (dedupKeepFirstBy (fun i => i)
          ((s.radiological_images.filter
            (fun ri => ri.procedure_id == pr.procedure_id)).map (·.image_id))).length
      report_word_count := (cr.map (·.word_count)).getD 0 })))))

/-- The fact insert of `load_fact_procedure`:
`ON CONFLICT (procedure_id) DO UPDATE` refreshes the measures only. -/
def upsertFactProc (r : FactSrcRow) (psk fsk msk dsk : Int) (t : TargetDB) :
    TargetDB :=
  if (t.fact_procedure.find? (fun f => f.procedure_id == r.procedure_id)).isSome then
    { t with fact_procedure := t.fact_procedure.map (fun f =>
        if f.procedure_id == r.procedure_id then
          { f with abnormality_detected := r.abnormality_detected,
                   report_word_count := r.report_word_count }
        else f) }
  else
    { t with fact_procedure := t.fact_procedure ++
        [⟨r.encounter_id, r.procedure_id, psk, fsk, msk, some dsk, r.encounter_date,
          r.projection_name, r.region_name, r.finding_severity,
          r.abnormality_detected, r.total_images, r.report_word_count⟩] }

/-- The inner `try` of `load_fact_procedure`'s per-row loop: resolve each
dimension surrogate key in the target, falling back to the `-1` sentinel on a
lookup miss, and upsert the fact row. -/
def factRowTry (env : AEnv) (r : FactSrcRow) (st : AState) :
    Except (List Char) Unit × AState :=
  andThenA (aFetchTgt env (fun t => (t.dim_patient.find?
      (fun d => d.patient_id == r.patient_id)).map (·.patient_sk)) st) (fun pres st =>
  let patient_sk := pres.getD (-1)
  andThenA (aFetchTgt env (fun t => (t.dim_facility.find?
      (fun d => d.facility_id == r.facility_id)).map (·.facility_sk)) st) (fun fres st =>
  let facility_sk := fres.getD (-1)
  andThenA (aFetchTgt env (fun t => (t.dim_modality.find?
      (fun d => d.modality_id == r.modality_id)).map (·.modality_sk)) st) (fun mres st =>
  let modality_sk := mres.getD (-1)
  andThenA
    (match r.diagnosis_id with
     | none => (.ok (-1 : Int), st)
     | some did =>
       andThenA (aFetchTgt env (fun t => (t.dim_diagnosis.find?
           (fun d => d.diagnosis_id == did)).map (·.diagnosis_sk)) st)
         (fun dres st => (.ok (dres.getD (-1)), st)))
    (fun diagnosis_sk st =>
  aExec env (upsertFactProc r patient_sk facility_sk modality_sk diagnosis_sk) st))))

/-- The per-row loop of `load_fact_procedure`: a row whose inner `try` raises
is skipped (`continue`) and not counted. -/
def factLoop (env : AEnv) : List FactSrcRow → Nat → AState → Nat × AState
  | [], n, st => (n, st)
  | r :: rs, n, st =>
    match factRowTry env r st with
    | (.ok _, st) => factLoop env rs (n + 1) st
    | (.error _, st) => factLoop env rs n st

/-- Source: `TwoDatabaseAnalyticsETL.load_fact_procedure`. -/
def load_fact_procedure (mode : EtlMode) (env : AEnv) (hours : Nat) (st : AState) :
    Except (List Char) Nat × AState :=
  loadCatch (S "fact_procedure") (
    andThenA
      (if mode = .full then aExec env (fun t => { t with fact_procedure := [] }) st
       else (.ok (), st)) (fun _ st =>
    let cutoff : Option Nat := if mode = .full then none else some (env.now - hours)
    andThenA (aQuerySrc env (fun s => extract_fact_procedure s cutoff) st)
      (fun rows st =>
    let r := factLoop env rows 0 st
    andThenA (aCommit env r.2) (fun _ st =>
    (.ok r.1, { st with stats := { st.stats with facts_loaded :=
        st.stats.facts_loaded ++ [(S "fact_procedure", r.1)] } })))))

/-- One row of the fact_language_usage extraction (clinical_reports LEFT JOIN
language_registry with `COALESCE(language_code, 'UNKNOWN')`). -/
def extract_fact_language (s : Pipeline.Tables) : List FactLang :=
  s.clinical_reports.map (fun cr =>
    { report_id := cr.report_id
      procedure_id := cr.procedure_id
      language_code := ((s.language_registry.find?
          (fun l => l.language_id == cr.language_id)).map
            (·.language_code)).getD (S "UNKNOWN")
      word_count := cr.word_count })

/-- `INSERT ... ON CONFLICT (report_id) DO UPDATE` of
load_fact_language_usage. -/
def upsertFactLang (r : FactLang) (t : TargetDB) : TargetDB :=
  if (t.fact_language_usage.find? (fun f => f.report_id == r.report_id)).isSome then
    { t with fact_language_usage := t.fact_language_usage.map (fun f =>
        if f.report_id == r.report_id then r else f) }
  else
    { t with fact_language_usage := t.fact_language_usage ++ [r] }

/-- Source: `TwoDatabaseAnalyticsETL.load_fact_language_usage`. -/
def load_fact_language_usage (mode : EtlMode) (env : AEnv) (st : AState) :
    Except (List Char) Nat × AState :=
  loadCatch (S "fact_language_usage") (
    andThenA
      (if mode = .full then
        aExec env (fun t => { t with fact_language_usage := [] }) st
       else (.ok (), st)) (fun _ st =>
    andThenA (aQuerySrc env extract_fact_language st) (fun rows st =>
    andThenA (loadRows env upsertFactLang rows st) (fun _ st =>
    andThenA (aCommit env st) (fun _ st =>
    (.ok rows.length, { st with stats := { st.stats with facts_loaded :=
        st.stats.facts_loaded ++ [(S "fact_language_usage", rows.length)] } }))))))

/-- Source: `TwoDatabaseAnalyticsETL.run`: the six loads in sequence inside
one `try`; the outer handler records the error under the stats `error` key
and returns the stats instead of raising. -/
def runAnalytics (mode : EtlMode) (env : AEnv) (st : AState) : AStats × AState :=
  match
    andThenA (load_dim_patient mode env st) (fun _ st =>
    andThenA (load_dim_facility mode env st) (fun _ st =>
    andThenA (load_dim_modality mode env st) (fun _ st =>
    andThenA (load_dim_diagnosis mode env st) (fun _ st =>
    andThenA (load_fact_procedure mode env 24 st) (fun _ st =>
    andThenA (load_fact_language_usage mode env st) (fun _ st =>
    (.ok (), st)))))))
  with
  | (.ok _, st) => (st.stats, st)
  | (.error e, st) =>
    let st2 := { st with stats := { st.stats with errorMsg := some e } }
    (st2.stats, st2)

/-- An empty warehouse. -/
def emptyTarget : TargetDB := ⟨[], [], [], [], [], [], 0⟩

/-- Fresh state for one analytics run. -/
def initAState (src : Pipeline.Tables) (tgt : TargetDB) : AState :=
  ⟨src, tgt, tgt, 0, ⟨[], [], [], none⟩⟩

end Analytics

namespace FactFixed

/-- One row of load_fact_table.py's extraction query (severity, abnormality
and word count are COALESCEd; there is no diagnosis join). -/
structure FFRow where
  procedure_id : Nat
  encounter_id : Nat
  patient_id : Nat
  facility_id : Nat
  modality_id : Nat
  encounter_date : Nat
  finding_severity : List Char
  abnormality_detected : Bool
  total_images : Nat
  report_word_count : Nat
deriving DecidableEq

/-- The extraction query of `load_fact_procedure_fixed`. -/
def extract_fixed (s : Pipeline.Tables) : List FFRow :=
  (s.procedures.flatMap (fun pr =>
    (s.encounters.filter (fun e => e.encounter_id == pr.encounter_id)).flatMap (fun e =>
    (Analytics.leftJoin s.findings
        (fun fi => fi.procedure_id == pr.procedure_id)).flatMap (fun fi =>
    (Analytics.leftJoin s.clinical_reports
        (fun cr => cr.procedure_id == pr.procedure_id)).map (fun cr =>
      { procedure_id := pr.procedure_id
        encounter_id := e.encounter_id
        patient_id := e.patient_id
        facility_id := e.facility_id
        modality_id := pr.modality_id
        encounter_date := e.encounter_date
        finding_severity := ((fi.map (·.finding_severity)).getD (S "Unknown"))
        abnormality_detected := ((fi.map (·.abnormality_detected)).getD false)
        total_images := (dedupKeepFirstBy (fun i => i)
            ((s.radiological_images.filter
              (fun ri => ri.procedure_id == pr.procedure_id)).map (·.image_id))).length
        report_word_count := (cr.map (·.word_count)).getD 0 })))))

/-- The fact insert of `load_fact_procedure_fixed`: `diagnosis_sk` is always
NULL ("KEY FIX" comment in the source); the columns absent from its INSERT
(projection/region names) are NULL. -/
def upsertFactFixed (r : FFRow) (psk fsk msk : Int)
    (t : Analytics.TargetDB) : Analytics.TargetDB :=
  if (t.fact_procedure.find? (fun f => f.procedure_id == r.procedure_id)).isSome then
    { t with fact_procedure := t.fact_procedure.map (fun f =>
        if f.procedure_id == r.procedure_id then
          { f with abnormality_detected := some r.abnormality_detected,
                   report_word_count := r.report_word_count }
        else f) }
  else
    { t with fact_procedure := t.fact_procedure ++
        [⟨r.encounter_id, r.procedure_id, psk, fsk, msk, none, r.encounter_date,
          none, none, some r.finding_severity, some r.abnormality_detected,
          r.total_images, r.report_word_count⟩] }

/-- The inner `try` of the fixed loader's per-row loop: three dimension
lookups with `-1` fallback, then the insert with NULL `diagnosis_sk`. -/
def ffRowTry (env : Analytics.AEnv) (r : FFRow) (st : Analytics.AState) :
    Except (List Char) Unit × Analytics.AState :=
  Analytics.andThenA (Analytics.aFetchTgt env (fun t => (t.dim_patient.find?
      (fun d => d.patient_id == r.patient_id)).map (·.patient_sk)) st) (fun pres st =>
  let patient_sk := pres.getD (-1)
  Analytics.andThenA (Analytics.aFetchTgt env (fun t => (t.dim_facility.find?
      (fun d => d.facility_id == r.facility_id)).map (·.facility_sk)) st) (fun fres st =>
  let facility_sk := fres.getD (-1)
  Analytics.andThenA (Analytics.aFetchTgt env (fun t => (t.dim_modality.find?
      (fun d => d.modality_id == r.modality_id)).map (·.modality_sk)) st) (fun mres st =>
  let modality_sk := mres.getD (-1)
  Analytics.aExec env (upsertFactFixed r patient_sk facility_sk modality_sk) st)))

/-- The fixed loader's per-row loop: a failing row is counted as failed, the
target transaction is rolled back, and the loop continues. -/
def ffLoop (env : Analytics.AEnv) :
    List FFRow → Nat → Nat → Analytics.AState → (Nat × Nat) × Analytics.AState
  | [], nl, nf, st => ((nl, nf), st)
  | r :: rs, nl, nf, st =>
    match ffRowTry env r st with
    | (.ok _, st) => ffLoop env rs (nl + 1) nf st
    | (.error _, st) => ffLoop env rs nl (nf + 1) (Analytics.aRollback st)

/-- Source: `load_fact_procedure_fixed` in dwh/load_fact_table.py (connection
acquisition modelled as given; returns `final_count > 0`). -/
def load_fact_procedure_fixed (env : Analytics.AEnv) (st : Analytics.AState) :
    Bool × Analytics.AState :=
  match
    Analytics.andThenA (Analytics.aQuerySrc env extract_fixed st) (fun rows st =>
    Analytics.andThenA
      (Analytics.aExec env (fun t => { t with fact_procedure := [] }) st) (fun _ st =>
    Analytics.andThenA (Analytics.aCommit env st) (fun _ st =>
    let r := ffLoop env rows 0 0 st
    Analytics.andThenA (Analytics.aCommit env r.2) (fun _ st =>
    Analytics.andThenA
      (Analytics.aFetchTgt env (fun t => some t.fact_procedure.length) st)
      (fun cnt st => (.ok (cnt.getD 0), st))))))
  with
  | (.ok finalCount, st) => (decide (0 < finalCount), st)
  | (.error _, st) => (false, st)

end FactFixed

namespace DbConn

/-- A resolved connection configuration. -/
structure DbConfig where
  host : List Char
  port : Nat
  user : List Char
  password : List Char
  database : List Char
deriving DecidableEq

/-- `db_type` selector of get_db_config. -/
inductive DbType where
  | analytics
  | operational
deriving DecidableEq

/-- The process environment (the `.env`-derived variables) together with
which `(host, database)` endpoints `psycopg2.connect` can actually reach. -/
structure ConnEnv where
  envHost : List Char
  envPort : Nat
  envUser : List Char
  envPassword : List Char
  dbNameOperational : List Char
  dbNameAnalytics : List Char
  reachable : DbConfig → Bool

/-- Source: `get_db_config` in utils/db_connection.py. -/
def get_db_config (env : ConnEnv) (dbType : DbType) : DbConfig :=
  { host := env.envHost
    port := env.envPort
    user := env.envUser
    password := env.envPassword
    database :=
      match dbType with
      | .operational => env.dbNameOperational
      | .analytics => env.dbNameAnalytics }

/-- A live connection handle. -/
structure Conn where
  cfg : DbConfig
deriving DecidableEq

/-- Source: `get_db_connection` in utils/db_connection.py.  Besides the
result it returns the trace of hosts a connection attempt was made against
(the source makes exactly one `psycopg2.connect` call and re-raises its
error). -/
def get_db_connection (env : ConnEnv) (dbType : DbType)
    (dbName : Option (List Char)) : Except (List Char) Conn × List (List Char) :=
  let config := get_db_config env dbType
  let config :=
    match dbName with
    | some n => { config with database := n }
    | none => config
  if env.reachable config then (.ok ⟨config⟩, [config.host])
  else (.error (S "connection failed"), [config.host])

/-- Source: `TwoDatabaseAnalyticsETL.get_source_connection`: reuse a live
cached connection, otherwise call `get_db_connection` and re-raise its
error. -/
def get_source_connection (env : ConnEnv) (cached : Option Conn)
    (sourceDb : List Char) : Except (List Char) Conn × List (List Char) :=
  match cached with
  | some c => (.ok c, [])
  | none => get_db_connection env .analytics (some sourceDb)

end DbConn

namespace Generator

/-- `random.randint(lo, hi)` driven by one raw draw from the supply. -/
def randint (lo hi raw : Nat) : Nat := lo + raw % (hi + 1 - lo)

/-- Source: `PatientRegistry` in the synthetic generator: patient id to
`(birth_year, birth_month, birth_day)` (the stored `birth_year` key is the
triple's first component). -/
structure PatientRegistry where
  patients : List (List Char × (Nat × Nat × Nat))
deriving DecidableEq

/-- Source: `PatientRegistry.get_or_create_patient` with the default birth
year range; the three `random.randint` draws come from the supply at the
current counter. -/
def get_or_create_patient (supply : Nat → Nat) (reg : PatientRegistry) (ctr : Nat)
    (patient_id : List Char) : (Nat × Nat × Nat) × PatientRegistry × Nat :=
  match lookupA reg.patients patient_id with
  | some dob => (dob, reg, ctr)
  | none =>
    let birth_year := randint 1935 2005 (supply ctr)
    let birth_month := randint 1 12 (supply (ctr + 1))
    let birth_day := randint 1 28 (supply (ctr + 2))
    let dob := (birth_year, birth_month, birth_day)
    (dob, ⟨reg.patients ++ [(patient_id, dob)]⟩, ctr + 3)

/-- The DateOfBirth pass of `generate_padchest_data` (STEP 4): one
`get_or_create_patient` call per row over the generated patient-id list. -/
def dobsForIds (supply : Nat → Nat) :
    List (List Char) → PatientRegistry → Nat → List (Nat × Nat × Nat)
  | [], _, _ => []
  | pid :: rest, reg, ctr =>
    let r := get_or_create_patient supply reg ctr pid
    r.1 :: dobsForIds supply rest r.2.1 r.2.2

/-- The registry and counter left after a sequence of
`get_or_create_patient` calls. -/
def regAfter (supply : Nat → Nat) :
    List (List Char) → PatientRegistry → Nat → PatientRegistry × Nat
  | [], reg, ctr => (reg, ctr)
  | pid :: rest, reg, ctr =>
    let r := get_or_create_patient supply reg ctr pid
    regAfter supply rest r.2.1 r.2.2

/-- The DateOfBirth column of one `generate_padchest_data` run, for a given
generated patient-id list (the id list itself comes from the upstream random
sampling of STEP 1 and is universally quantified in the theorems). -/
def generate_dobs (supply : Nat → Nat) (patient_ids : List (List Char)) :
    List (Nat × Nat × Nat) :=
  dobsForIds supply patient_ids ⟨[]⟩ 0

/-- One CSV record as `IncrementalDataManager.append_data` sees it: the
ImageID key column plus the remaining payload (opaque for this model). -/
structure DataRow where
  imageId : List Char
  payload : Nat
deriving DecidableEq

/-- Source: `IncrementalDataManager.append_data`, at the dataframe level
(file I/O and the JSON state record are external collaborators): `none`
existing data = the output file does not exist and the new rows are written
verbatim; otherwise concatenate and `drop_duplicates(subset=['ImageID'],
keep='first')`. -/
def append_data (existing : Option (List DataRow)) (newRows : List DataRow) :
    List DataRow :=
  match existing with
  | some ex => dedupKeepFirstBy (·.imageId) (ex ++ newRows)
  | none => newRows

end Generator

/-- Concrete input for the batch-rollback evaluation: first of two rows of
one batch (same patient, distinct studies, no report/labels). -/
def c2Row1 : Pipeline.Row :=
  ⟨some (S "P1"), some 1, some 10, some (S "S1"), some (S "M"), none, none,
   some (S "L"), some (S "H"), some (S "DX"), some (S "PA"), some (S "I1"),
   none, none, none, none⟩

/-- Concrete input for the batch-rollback evaluation: second row. -/
def c2Row2 : Pipeline.Row :=
  ⟨some (S "P1"), some 1, some 10, some (S "S2"), some (S "M"), none, none,
   some (S "L"), some (S "H"), some (S "DX"), some (S "PA"), some (S "I2"),
   none, none, none, none⟩

/-- Environment for the batch-rollback evaluation: database statement 19 —
the encounters INSERT of row 2 (statements 0–11 are the master-data preload,
12–17 row 1, 18 row 2's patient lookup) — raises, e.g. a constraint
violation; everything else succeeds. -/
def c2Env : Pipeline.Env :=
  ⟨fun n => if n = 19 then some (S "boom") else none, 0⟩

/-- The same run with no failure injected, for contrast. -/
def c2EnvOk : Pipeline.Env := ⟨fun _ => none, 0⟩

/-- Concrete source database for the dimensional-ETL abort evaluation: one
facility and one patient exist upstream. -/
def c1Src : Pipeline.Tables :=
  { Pipeline.emptyTables with
    facility_master := [⟨7, S "general_hospital", S "General Hospital", S "Rwanda"⟩],
    patients := [⟨1, S "P1", 0, S "M", none, none, S "L", 10, 10, 1⟩] }

/-- Environment for the dimensional-ETL abort evaluation: database statement
0 — the source extract of `load_dim_patient` in incremental mode — raises;
everything else would succeed. -/
def c1Env : Analytics.AEnv :=
  ⟨fun n => if n = 0 then some (S "boom") else none, 100⟩

/-!
## Supporting lemmas
-/

theorem natDigitsRev_eq_digits (fuel n : Nat) (h : n ≤ fuel) :
    natDigitsRev fuel n = Nat.digits 10 n := by
  induction fuel generalizing n with
  | zero =>
    interval_cases n
    simp [natDigitsRev]
  | succ fuel ih =>
    by_cases hn : n = 0
    · simp [natDigitsRev, hn]
    · have hdiv : n / 10 < n := Nat.div_lt_self (Nat.pos_of_ne_zero hn) (by norm_num)
      rw [natDigitsRev, if_neg hn, ih (n / 10) (by omega),
        Nat.digits_def' (by norm_num : 1 < 10) (Nat.pos_of_ne_zero hn)]

theorem decRepr_eq_digits (n : Nat) (h : n ≠ 0) :
    decRepr n = ((Nat.digits 10 n).map Nat.digitChar).reverse := by
  rw [decRepr, if_neg h, natDigitsRev_eq_digits n n le_rfl]

theorem digitChar_inj_lt {a b : Nat} (ha : a < 10) (hb : b < 10)
    (h : Nat.digitChar a = Nat.digitChar b) : a = b := by
  interval_cases a <;> interval_cases b <;> simp_all [Nat.digitChar]

theorem digitChar_ne_dash {a : Nat} (ha : a < 10) : Nat.digitChar a ≠ '-' := by
  interval_cases a <;> simp [Nat.digitChar]

theorem mem_decRepr_ne_dash {n : Nat} {c : Char} (hc : c ∈ decRepr n) : c ≠ '-' := by
  by_cases hn : n = 0
  · subst hn
    have h0 : decRepr 0 = ['0'] := rfl
    rw [h0, List.mem_singleton] at hc
    subst hc
    decide
  · rw [decRepr_eq_digits n hn, List.mem_reverse, List.mem_map] at hc
    obtain ⟨d, hd, rfl⟩ := hc
    exact digitChar_ne_dash (Nat.digits_lt_base (by norm_num) hd)

theorem mapDigitChar_inj (l1 : List Nat) (h1 : ∀ d ∈ l1, d < 10) :
    ∀ l2 : List Nat, (∀ d ∈ l2, d < 10) →
      l1.map Nat.digitChar = l2.map Nat.digitChar → l1 = l2 := by
  induction l1 with
  | nil =>
    intro l2 _ h
    cases l2 with
    | nil => rfl
    | cons b bs => simp at h
  | cons a as ih =>
    intro l2 h2 h
    cases l2 with
    | nil => simp at h
    | cons b bs =>
      simp only [List.map_cons, List.cons.injEq] at h
      have hab : a = b :=
        digitChar_inj_lt (h1 a (by simp)) (h2 b (by simp)) h.1
      have htl : as = bs :=
        ih (fun d hd => h1 d (by simp [hd])) bs (fun d hd => h2 d (by simp [hd])) h.2
      rw [hab, htl]

theorem decRepr_inj {m n : Nat} (hm : m ≠ 0) (hn : n ≠ 0)
    (h : decRepr m = decRepr n) : m = n := by
  rw [decRepr_eq_digits m hm, decRepr_eq_digits n hn] at h
  have h2 := List.reverse_injective h
  have h3 : Nat.digits 10 m = Nat.digits 10 n :=
    mapDigitChar_inj (Nat.digits 10 m)
      (fun d hd => Nat.digits_lt_base (by norm_num) hd)
      (Nat.digits 10 n)
      (fun d hd => Nat.digits_lt_base (by norm_num) hd) h2
  exact Nat.digits.injective 10 h3

theorem decRepr_length_pos (n : Nat) : 0 < (decRepr n).length := by
  by_cases hn : n = 0
  · subst hn; decide
  · rw [decRepr_eq_digits n hn]
    simp only [List.length_reverse, List.length_map]
    exact List.length_pos.mpr (Nat.digits_ne_nil_iff_ne_zero.mpr hn)

namespace Pipeline

theorem mkCode_succ_eq (norm : List Char) (c : Nat) :
    mkCode norm (c + 1) =
      norm.take (50 - ((decRepr (c + 2)).length + 1)) ++ '-' :: decRepr (c + 2) := rfl

theorem mkCode_zero_ne_succ (norm : List Char) (hn : norm.length ≤ 45) (c : Nat) :
    mkCode norm 0 ≠ mkCode norm (c + 1) := by
  intro h
  rw [mkCode_succ_eq] at h
  have h0 : mkCode norm 0 = norm := rfl
  rw [h0] at h
  have hlen := congrArg List.length h
  simp only [List.length_append, List.length_take, List.length_cons] at hlen
  have hd := decRepr_length_pos (c + 2)
  rcases Nat.le_total (50 - ((decRepr (c + 2)).length + 1)) norm.length with hle | hle
  · rw [Nat.min_eq_left hle] at hlen; omega
  · rw [Nat.min_eq_right hle] at hlen; omega

theorem mkCode_succ_ne_of_lt (norm : List Char) (hn : norm.length ≤ 45) {c1 c2 : Nat}
    (hlt : (decRepr (c1 + 2)).length < (decRepr (c2 + 2)).length) :
    mkCode norm (c1 + 1) ≠ mkCode norm (c2 + 1) := by
  intro h
  rw [mkCode_succ_eq, mkCode_succ_eq] at h
  set d1 := decRepr (c1 + 2) with hd1
  set d2 := decRepr (c2 + 2) with hd2
  set L1 := d1.length + 1 with hL1
  set L2 := d2.length + 1 with hL2
  by_cases hcase : norm.length ≤ 50 - L2
  · -- both prefixes untruncated: total lengths differ
    have hc1 : norm.length ≤ 50 - L1 := by omega
    rw [List.take_of_length_le hc1, List.take_of_length_le hcase] at h
    have hlen := congrArg List.length h
    simp only [List.length_append, List.length_cons] at hlen
    omega
  · push_neg at hcase
    by_cases hz : 50 - L1 = 0
    · -- both prefixes empty: suffix lengths differ
      have hz2 : 50 - L2 = 0 := by omega
      rw [hz, hz2] at h
      simp only [List.take_zero, List.nil_append] at h
      have hlen := congrArg List.length h
      simp only [List.length_cons] at hlen
      omega
    · -- at the dash position of the short-suffix code, the other code holds a
      -- digit character of its own suffix
      have hp : (norm.take (50 - L2)).length = 50 - L2 := by
        rw [List.length_take]; omega
      set p := 50 - L2 with hpdef
      set q := min (50 - L1) norm.length with hqdef
      have hq : (norm.take (50 - L1)).length = q := by
        rw [List.length_take]
      have hpq : p < q := by
        have h1 : p < 50 - L1 := by omega
        omega
      have hA : (norm.take (50 - L1) ++ '-' :: d1)[q]? = some '-' := by
        rw [List.getElem?_append_right (by rw [hq])]
        rw [hq, Nat.sub_self]
        exact List.getElem?_cons_zero
      have hB : (norm.take p ++ '-' :: d2)[q]? = some '-' → False := by
        intro hfalse
        rw [List.getElem?_append_right (by rw [hp]; omega)] at hfalse
        rw [hp] at hfalse
        have hsplit : q - p = (q - p - 1) + 1 := by omega
        rw [hsplit, List.getElem?_cons_succ] at hfalse
        exact mem_decRepr_ne_dash (List.getElem?_mem hfalse) rfl
      rw [h] at hA
      exact hB (by rw [← hA])

theorem mkCode_inj (norm : List Char) (hn : norm.length ≤ 45) {c1 c2 : Nat}
    (h : mkCode norm c1 = mkCode norm c2) : c1 = c2 := by
  rcases c1 with _ | c1 <;> rcases c2 with _ | c2
  · rfl
  · exact absurd h (mkCode_zero_ne_succ norm hn c2)
  · exact absurd h.symm (mkCode_zero_ne_succ norm hn c1)
  · rcases lt_trichotomy (decRepr (c1 + 2)).length (decRepr (c2 + 2)).length
      with hlt | heq | hgt
    · exact absurd h (mkCode_succ_ne_of_lt norm hn hlt)
    · rw [mkCode_succ_eq, mkCode_succ_eq, heq] at h
      have htail := List.append_cancel_left h
      have hds : decRepr (c1 + 2) = decRepr (c2 + 2) := by
        injection htail
      have := decRepr_inj (by omega) (by omega) hds
      omega
    · exact absurd h.symm (mkCode_succ_ne_of_lt norm hn hgt)

end Pipeline

namespace Pipeline

theorem normalizeBase_length_le (b : List Char) : (normalizeBase b).length ≤ 45 := by
  simp only [normalizeBase, List.length_take]
  exact Nat.min_le_left _ _

theorem lookupA_cons_pos {β : Type} (p : List Char × β) (ps : List (List Char × β))
    (k : List Char) (h : p.1 = k) : lookupA (p :: ps) k = some p.2 := by
  rw [lookupA, List.find?_cons_of_pos _ (by simp [h])]
  rfl

theorem lookupA_cons_neg {β : Type} (p : List Char × β) (ps : List (List Char × β))
    (k : List Char) (h : p.1 ≠ k) : lookupA (p :: ps) k = lookupA ps k := by
  rw [lookupA, List.find?_cons_of_neg _ (by simp [h])]
  rfl

theorem lookupA_setA_self {β : Type} (t : List (List Char × β)) (k : List Char) (v : β) :
    lookupA (setA t k v) k = some v := by
  induction t with
  | nil => exact lookupA_cons_pos (k, v) [] k rfl
  | cons p ps ih =>
    by_cases h : p.1 = k
    · rw [setA, if_pos (by simp [h])]
      exact lookupA_cons_pos (k, v) ps k rfl
    · rw [setA, if_neg (by simp [h])]
      rw [lookupA_cons_neg p _ k h]
      exact ih

theorem lookupA_setA_ne {β : Type} (t : List (List Char × β)) (k k' : List Char) (v : β)
    (h : k' ≠ k) : lookupA (setA t k v) k' = lookupA t k' := by
  induction t with
  | nil =>
    rw [setA, lookupA_cons_neg (k, v) [] k' (Ne.symm h)]
  | cons p ps ih =>
    by_cases hp : p.1 = k
    · rw [setA, if_pos (by simp [hp])]
      rw [lookupA_cons_neg (k, v) ps k' (Ne.symm h)]
      rw [lookupA_cons_neg p ps k' (by rw [hp]; exact Ne.symm h)]
    · rw [setA, if_neg (by simp [hp])]
      by_cases hp' : p.1 = k'
      · rw [lookupA_cons_pos p _ k' hp', lookupA_cons_pos p ps k' hp']
      · rw [lookupA_cons_neg p _ k' hp', lookupA_cons_neg p ps k' hp']
        exact ih

theorem genCodes_getElem?_spec :
    ∀ (bs : List (List Char)) (t : List (List Char × Nat)) (j : Nat) (b : List Char),
      bs[j]? = some b →
      ∃ c, (lookupA t (normalizeBase b)).getD 0 ≤ c ∧
        (genCodes t bs)[j]? = some (mkCode (normalizeBase b) c) := by
  intro bs
  induction bs with
  | nil =>
    intro t j b h
    simp at h
  | cons hd tl ih =>
    intro t j b hjb
    cases j with
    | zero =>
      have hb : hd = b := by simpa using hjb
      subst hb
      exact ⟨(lookupA t (normalizeBase hd)).getD 0, le_rfl, by
        simp [genCodes, generate_encounter_code]⟩
    | succ j =>
      simp only [List.getElem?_cons_succ] at hjb
      obtain ⟨c, hc, hcode⟩ :=
        ih (setA t (normalizeBase hd) ((lookupA t (normalizeBase hd)).getD 0 + 1)) j b hjb
      refine ⟨c, ?_, ?_⟩
      · refine le_trans ?_ hc
        by_cases h : normalizeBase b = normalizeBase hd
        · rw [h, lookupA_setA_self]
          simp only [Option.getD_some]
          rw [← h]
          omega
        · rw [lookupA_setA_ne _ _ _ _ h]
      · simpa [genCodes, generate_encounter_code] using hcode

theorem genCodes_ne_of_same_norm :
    ∀ (bs : List (List Char)) (t : List (List Char × Nat)) (i j : Nat)
      (bi bj : List Char),
      i < j → bs[i]? = some bi → bs[j]? = some bj →
      normalizeBase bi = normalizeBase bj →
      (genCodes t bs)[i]? ≠ (genCodes t bs)[j]? := by
  intro bs
  induction bs with
  | nil =>
    intro t i j bi bj hij hi hj hnorm
    simp at hi
  | cons hd tl ih =>
    intro t i j bi bj hij hi hj hnorm
    cases i with
    | zero =>
      have hb : hd = bi := by simpa using hi
      subst hb
      cases j with
      | zero => omega
      | succ j =>
        simp only [List.getElem?_cons_succ] at hj
        obtain ⟨c, hc, hcode⟩ := genCodes_getElem?_spec tl
          (setA t (normalizeBase hd) ((lookupA t (normalizeBase hd)).getD 0 + 1)) j bj hj
        rw [← hnorm, lookupA_setA_self, Option.getD_some] at hc
        intro heq
        rw [show (genCodes t (hd :: tl))[0]? =
              some (mkCode (normalizeBase hd) ((lookupA t (normalizeBase hd)).getD 0)) from by
            simp [genCodes, generate_encounter_code]] at heq
        rw [show (genCodes t (hd :: tl))[j + 1]? = (genCodes
              (setA t (normalizeBase hd)
                ((lookupA t (normalizeBase hd)).getD 0 + 1)) tl)[j]? from by
            simp [genCodes, generate_encounter_code]] at heq
        rw [hcode, ← hnorm] at heq
        have heq2 : mkCode (normalizeBase hd) ((lookupA t (normalizeBase hd)).getD 0) =
            mkCode (normalizeBase hd) c := by
          exact Option.some.inj heq
        have := mkCode_inj (normalizeBase hd) (normalizeBase_length_le hd) heq2
        omega
    | succ i =>
      cases j with
      | zero => omega
      | succ j =>
        simp only [List.getElem?_cons_succ] at hi hj
        have := ih (setA t (normalizeBase hd) ((lookupA t (normalizeBase hd)).getD 0 + 1))
          i j bi bj (by omega) hi hj hnorm
        simpa [genCodes, generate_encounter_code] using this

end Pipeline

/-!
## Claim theorems
-/

/-- Claim C5: for every labels string, `derive_finding_severity` returns
`Normal` when the labels string is empty or equal to `normal` up to case and
surrounding whitespace; otherwise, with `n` the number of pipe-delimited
labels that are non-empty after stripping, it returns `Mild` for `n = 1`,
`Moderate` for `n = 2`, `Severe` for `n = 3` and `Critical` for `n ≥ 4`; and
the derived abnormality boolean (`severity != 'Normal'` in `process_row`) is
true exactly when the severity is not `Normal`. -/
theorem derive_finding_severity_spec (labels : List Char) :
    ((labels = [] ∨ pyStrip (pyLower labels) = S "normal" ∨
        pyStrip (pyLower labels) = []) →
      Pipeline.derive_finding_severity labels = S "Normal") ∧
    (¬(labels = [] ∨ pyStrip (pyLower labels) = S "normal" ∨
        pyStrip (pyLower labels) = []) →
      (((splitOnChar '|' labels).filter (fun l => pyStrip l ≠ [])).length = 1 →
        Pipeline.derive_finding_severity labels = S "Mild") ∧
      (((splitOnChar '|' labels).filter (fun l => pyStrip l ≠ [])).length = 2 →
        Pipeline.derive_finding_severity labels = S "Moderate") ∧
      (((splitOnChar '|' labels).filter (fun l => pyStrip l ≠ [])).length = 3 →
        Pipeline.derive_finding_severity labels = S "Severe") ∧
      (4 ≤ ((splitOnChar '|' labels).filter (fun l => pyStrip l ≠ [])).length →
        Pipeline.derive_finding_severity labels = S "Critical")) ∧
    ((!(Pipeline.derive_finding_severity labels == S "Normal")) = true ↔
      Pipeline.derive_finding_severity labels ≠ S "Normal") := by
  refine ⟨?_, ?_, ?_⟩
  · intro h
    rw [Pipeline.derive_finding_severity, if_pos h]
  · intro h
    rw [Pipeline.derive_finding_severity, if_neg h]
    refine ⟨?_, ?_, ?_, ?_⟩ <;> intro hn
    · rw [if_pos hn]
    · rw [if_neg (by omega), if_pos hn]
    · rw [if_neg (by omega), if_neg (by omega), if_pos hn]
    · rw [if_neg (by omega), if_neg (by omega), if_neg (by omega)]
  · simp

/-- Witness for C5: evaluating the specification on the concrete label sets
`"edema|effusion"` and `"  NORMAL  "`. -/
theorem derive_finding_severity_spec_witness :
    Pipeline.derive_finding_severity (S "edema|effusion") = S "Moderate" ∧
    Pipeline.derive_finding_severity (S "  NORMAL  ") = S "Normal" :=
  ⟨((derive_finding_severity_spec (S "edema|effusion")).2.1 (by decide)).2.1 (by decide),
   (derive_finding_severity_spec (S "  NORMAL  ")).1 (by decide)⟩

/-- Counterexample for C3: in one run, base code `X` occurring twice and base
code `X-2` occurring once produce the final encounter codes `X`, `X-2`,
`X-2`: the second and third rows — distinct input rows with distinct base
codes — receive the same final code, so pairwise distinctness fails exactly
in the case the claim includes (a base that already ends in a numeric
suffix). -/
theorem encounter_code_collision_X_X2 :
    Pipeline.genCodes [] [S "X", S "X", S "X-2"] = [S "X", S "X-2", S "X-2"] ∧
    (Pipeline.genCodes [] [S "X", S "X", S "X-2"])[1]? =
      (Pipeline.genCodes [] [S "X", S "X", S "X-2"])[2]? ∧
    (S "X" : List Char) ≠ S "X-2" := by
  refine ⟨by decide, by decide, by decide⟩

/-- Claim C3 (amended): the in-memory counter guarantees uniqueness only
among rows whose base codes have the same normalization: for every sequence
of base codes fed through one run's `_generate_encounter_code` (tracker
initially empty), any two row positions whose normalized base codes coincide
receive distinct final encounter codes.  Uniqueness across different
normalized bases can fail (see the `X`/`X-2` counterexample). -/
theorem encounter_codes_distinct_same_base (bases : List (List Char))
    (i j : Nat) (bi bj : List Char) (hij : i < j)
    (hi : bases[i]? = some bi) (hj : bases[j]? = some bj)
    (hnorm : Pipeline.normalizeBase bi = Pipeline.normalizeBase bj) :
    (Pipeline.genCodes [] bases)[i]? ≠ (Pipeline.genCodes [] bases)[j]? :=
  Pipeline.genCodes_ne_of_same_norm bases [] i j bi bj hij hi hj hnorm

/-- Witness for the amended C3: two rows with the same base code `X` get the
distinct codes `X` and `X-2`. -/
theorem encounter_codes_distinct_same_base_witness :
    (Pipeline.genCodes [] [S "X", S "X"])[0]? ≠ (Pipeline.genCodes [] [S "X", S "X"])[1]? :=
  encounter_codes_distinct_same_base [S "X", S "X"] 0 1 (S "X") (S "X")
    (by decide) (by decide) (by decide) rfl

theorem lookupA_append_of_some {β : Type} (l : List (List Char × β))
    (x : List Char × β) (k : List Char) (v : β) (h : lookupA l k = some v) :
    lookupA (l ++ [x]) k = some v := by
  rw [lookupA, List.find?_append]
  rw [lookupA] at h
  cases hf : l.find? (fun p => p.1 == k) with
  | none => rw [hf] at h; simp at h
  | some p => rw [hf] at h; simpa using h

namespace Generator

theorem get_or_create_lookup (supply : Nat → Nat) (reg : PatientRegistry)
    (ctr : Nat) (pid : List Char) :
    lookupA (get_or_create_patient supply reg ctr pid).2.1.patients pid =
      some (get_or_create_patient supply reg ctr pid).1 := by
  rw [get_or_create_patient]
  cases h : lookupA reg.patients pid with
  | some d => simpa using h
  | none =>
    simp only []
    rw [lookupA, List.find?_append]
    rw [lookupA] at h
    cases hf : reg.patients.find? (fun p => p.1 == pid) with
    | none => simp [List.find?]
    | some p => rw [hf] at h; simp at h

theorem get_or_create_preserves (supply : Nat → Nat) (reg : PatientRegistry)
    (ctr : Nat) (pid k : List Char) (d : Nat × Nat × Nat)
    (h : lookupA reg.patients k = some d) :
    lookupA (get_or_create_patient supply reg ctr pid).2.1.patients k = some d := by
  rw [get_or_create_patient]
  cases hl : lookupA reg.patients pid with
  | some _ => simpa using h
  | none =>
    simp only []
    exact lookupA_append_of_some _ _ k d h

theorem regAfter_preserves (supply : Nat → Nat) :
    ∀ (ids : List (List Char)) (reg : PatientRegistry) (ctr : Nat)
      (k : List Char) (d : Nat × Nat × Nat),
      lookupA reg.patients k = some d →
      lookupA (regAfter supply ids reg ctr).1.patients k = some d := by
  intro ids
  induction ids with
  | nil => intro reg ctr k d h; exact h
  | cons pid rest ih =>
    intro reg ctr k d h
    rw [regAfter]
    exact ih _ _ k d (get_or_create_preserves supply reg ctr pid k d h)

theorem dobs_lookup (supply : Nat → Nat) :
    ∀ (ids : List (List Char)) (reg : PatientRegistry) (ctr : Nat)
      (i : Nat) (pid : List Char),
      ids[i]? = some pid →
      ∃ d, (dobsForIds supply ids reg ctr)[i]? = some d ∧
        lookupA (regAfter supply ids reg ctr).1.patients pid = some d := by
  intro ids
  induction ids with
  | nil =>
    intro reg ctr i pid h
    simp at h
  | cons p rest ih =>
    intro reg ctr i pid h
    cases i with
    | zero =>
      have hp : p = pid := by simpa using h
      subst hp
      refine ⟨(get_or_create_patient supply reg ctr p).1, by simp [dobsForIds], ?_⟩
      rw [regAfter]
      exact regAfter_preserves supply rest _ _ p _ (get_or_create_lookup supply reg ctr p)
    | succ i =>
      simp only [List.getElem?_cons_succ] at h
      obtain ⟨d, hd, hl⟩ := ih (get_or_create_patient supply reg ctr p).2.1
        (get_or_create_patient supply reg ctr p).2.2 i pid h
      exact ⟨d, by simpa [dobsForIds] using hd, by rwa [regAfter]⟩

end Generator

/-- Claim C7: in one generation run, every repeated occurrence of a patient
natural code receives the identical date of birth: for every random supply
and every generated patient-id sequence, any two row positions carrying the
same patient code get equal `DateOfBirth` values (the registry returns the
stored date of birth on every repeated occurrence). -/
theorem generator_dob_consistent (supply : Nat → Nat) (ids : List (List Char))
    (i j : Nat) (pid : List Char)
    (hi : ids[i]? = some pid) (hj : ids[j]? = some pid) :
    (Generator.generate_dobs supply ids)[i]? =
      (Generator.generate_dobs supply ids)[j]? := by
  obtain ⟨di, hdi, hli⟩ := Generator.dobs_lookup supply ids ⟨[]⟩ 0 i pid hi
  obtain ⟨dj, hdj, hlj⟩ := Generator.dobs_lookup supply ids ⟨[]⟩ 0 j pid hj
  rw [Generator.generate_dobs, hdi, hdj]
  rw [hli] at hlj
  simpa using hlj

/-- Witness for C7: the patient code `PAT000001` occurring at rows 0 and 2
gets the same date of birth. -/
theorem generator_dob_consistent_witness :
    (Generator.generate_dobs (fun n => n)
        [S "PAT000001", S "PAT000002", S "PAT000001"])[0]? =
      (Generator.generate_dobs (fun n => n)
        [S "PAT000001", S "PAT000002", S "PAT000001"])[2]? :=
  generator_dob_consistent (fun n => n)
    [S "PAT000001", S "PAT000002", S "PAT000001"] 0 2 (S "PAT000001")
    (by decide) (by decide)

theorem dedupAux_sublist {α κ : Type} [DecidableEq κ] (key : α → κ) :
    ∀ (fuel : Nat) (l : List α), (dedupAux key fuel l).Sublist l := by
  intro fuel
  induction fuel with
  | zero =>
    intro l
    cases l with
    | nil => exact List.Sublist.refl _
    | cons x xs => exact List.nil_sublist _
  | succ fuel ih =>
    intro l
    cases l with
    | nil => exact List.Sublist.refl _
    | cons x xs =>
      rw [dedupAux]
      exact ((ih _).trans (List.filter_sublist xs)).cons₂ x

theorem dedup_sublist {α κ : Type} [DecidableEq κ] (key : α → κ) (l : List α) :
    (dedupKeepFirstBy key l).Sublist l :=
  dedupAux_sublist key l.length l

theorem dedup_keys_nodup {α κ : Type} [DecidableEq κ] (key : α → κ) (l : List α) :
    ((dedupKeepFirstBy key l).map key).Nodup := by
  rw [dedupKeepFirstBy]
  generalize l.length = fuel
  induction fuel generalizing l with
  | zero =>
    cases l with
    | nil => simp [dedupAux]
    | cons x xs => simp [dedupAux]
  | succ fuel ih =>
    cases l with
    | nil => simp [dedupAux]
    | cons x xs =>
      rw [dedupAux]
      simp only [List.map_cons, List.nodup_cons]
      refine ⟨?_, ih _⟩
      intro hmem
      rw [List.mem_map] at hmem
      obtain ⟨y, hy, hky⟩ := hmem
      have hy2 := (dedupAux_sublist key fuel _).subset hy
      rw [List.mem_filter] at hy2
      have := hy2.2
      simp only [decide_eq_true_eq] at this
      exact this hky

theorem find?_filter_of_imp {α : Type} (p q : α → Bool) (l : List α)
    (h : ∀ y, p y = true → q y = true) :
    (l.filter q).find? p = l.find? p := by
  induction l with
  | nil => rfl
  | cons a as ih =>
    by_cases hq : q a
    · rw [List.filter_cons_of_pos hq]
      by_cases hp : p a
      · rw [List.find?_cons_of_pos _ hp, List.find?_cons_of_pos _ hp]
      · rw [List.find?_cons_of_neg _ (by simp [hp]), List.find?_cons_of_neg _ (by simp [hp])]
        exact ih
    · rw [List.filter_cons_of_neg hq]
      have hp : ¬ p a = true := fun hpa => hq (h a hpa)
      rw [List.find?_cons_of_neg _ (by simp [hp])]
      exact ih

theorem dedupAux_find?_key {α κ : Type} [DecidableEq κ] (key : α → κ) (k : κ) :
    ∀ (fuel : Nat) (l : List α), l.length ≤ fuel →
      (dedupAux key fuel l).find? (fun y => decide (key y = k)) =
        l.find? (fun y => decide (key y = k)) := by
  intro fuel
  induction fuel with
  | zero =>
    intro l hl
    have : l = [] := List.length_eq_zero.mp (Nat.le_zero.mp hl)
    subst this
    rfl
  | succ fuel ih =>
    intro l hl
    cases l with
    | nil => rfl
    | cons x xs =>
      rw [dedupAux]
      by_cases hk : key x = k
      · rw [List.find?_cons_of_pos _ (by simp [hk]),
          List.find?_cons_of_pos _ (by simp [hk])]
      · rw [List.find?_cons_of_neg _ (by simp [hk]),
          List.find?_cons_of_neg _ (by simp [hk])]
        have hxs : xs.length ≤ fuel := by simpa using hl
        rw [ih _ (le_trans (List.length_filter_le _ _) hxs)]
        refine find?_filter_of_imp _ _ xs (fun y hy => ?_)
        simp only [decide_eq_true_eq] at hy ⊢
        rw [hy]
        exact Ne.symm hk

theorem dedup_find?_key {α κ : Type} [DecidableEq κ] (key : α → κ) (l : List α)
    (k : κ) :
    (dedupKeepFirstBy key l).find? (fun y => decide (key y = k)) =
      l.find? (fun y => decide (key y = k)) :=
  dedupAux_find?_key key k l.length l le_rfl

/-- Counterexample for C10: when the output file does not yet exist,
`append_data` writes the incoming rows verbatim — two rows sharing the
ImageID `I1` both land in the output, so the completed call leaves two rows
with the same ImageID. -/
theorem append_data_create_keeps_duplicates :
    Generator.append_data none [⟨S "I1", 0⟩, ⟨S "I1", 1⟩] =
      [⟨S "I1", 0⟩, ⟨S "I1", 1⟩] ∧
    ¬ ((Generator.append_data none [⟨S "I1", 0⟩, ⟨S "I1", 1⟩]).map
        Generator.DataRow.imageId).Nodup := by
  exact ⟨rfl, by decide⟩

/-- Claim C10 (amended): when the output file already exists, `append_data`
deduplicates the concatenation on ImageID keeping first occurrences: the
result has pairwise-distinct ImageIDs, consists of rows of the concatenation
in order, retains for every ImageID exactly its first occurrence, and its
length is at most the sum of the two inputs (so the file can grow by less
than the number of rows passed in).  When the file does not yet exist the
rows are written verbatim and duplicates inside the input are not removed. -/
theorem append_data_dedup_spec (ex newRows : List Generator.DataRow) :
    ((Generator.append_data (some ex) newRows).map Generator.DataRow.imageId).Nodup ∧
    (Generator.append_data (some ex) newRows).Sublist (ex ++ newRows) ∧
    (∀ k : List Char,
      (Generator.append_data (some ex) newRows).find?
          (fun y => decide (y.imageId = k)) =
        (ex ++ newRows).find? (fun y => decide (y.imageId = k))) ∧
    (Generator.append_data (some ex) newRows).length ≤ ex.length + newRows.length ∧
    Generator.append_data none newRows = newRows := by
  refine ⟨dedup_keys_nodup _ _, dedup_sublist _ _, fun k => dedup_find?_key _ _ k, ?_, rfl⟩
  have h := (dedup_sublist (Generator.DataRow.imageId) (ex ++ newRows)).length_le
  simpa using h

/-- Counterexample evaluation for C8: with every endpoint unreachable,
`get_db_connection` propagates the connection error after a single attempt
against the one configured host — the attempted-host trace is exactly
`[localhost]`, with no alternate host. -/
theorem connection_no_fallback_counterexample :
    DbConn.get_db_connection
        ⟨S "localhost", 5432, S "postgres", S "postgres",
         S "efiche_clinical_database", S "efiche_clinical_db_analytics",
         fun _ => false⟩ .operational none =
      (.error (S "connection failed"), [S "localhost"]) ∧
    (DbConn.get_db_connection
        ⟨S "localhost", 5432, S "postgres", S "postgres",
         S "efiche_clinical_database", S "efiche_clinical_db_analytics",
         fun _ => false⟩ .operational none).2.length = 1 := by
  exact ⟨rfl, rfl⟩

/-- Claim C8 (amended): a database-connection failure is propagated to the
caller immediately after the single connection attempt against the one
configured host fails; no fallback attempt against an alternate host is
made.  `TwoDatabaseAnalyticsETL.get_source_connection` (no cached
connection) re-raises the same error, making it fatal to the run. -/
theorem connection_error_single_attempt (env : DbConn.ConnEnv)
    (dbType : DbConn.DbType) (dbName : Option (List Char)) (srcDb : List Char) :
    (env.reachable
        { DbConn.get_db_config env dbType with
          database := dbName.getD (DbConn.get_db_config env dbType).database } = false →
      DbConn.get_db_connection env dbType dbName =
        (.error (S "connection failed"), [env.envHost])) ∧
    (env.reachable
        { DbConn.get_db_config env .analytics with database := srcDb } = false →
      DbConn.get_source_connection env none srcDb =
        (.error (S "connection failed"), [env.envHost])) := by
  constructor
  · intro h
    simp only [DbConn.get_db_config] at h
    cases dbName with
    | none =>
      simp only [Option.getD_none] at h
      simp [DbConn.get_db_connection, DbConn.get_db_config, h]
    | some n =>
      simp only [Option.getD_some] at h
      simp [DbConn.get_db_connection, DbConn.get_db_config, h]
  · intro h
    simp only [DbConn.get_db_config] at h
    simp [DbConn.get_source_connection, DbConn.get_db_connection,
      DbConn.get_db_config, h]

/-- Witness for the amended C8: the concrete unreachable environment. -/
theorem connection_error_single_attempt_witness :
    DbConn.get_source_connection
        ⟨S "localhost", 5432, S "postgres", S "postgres",
         S "efiche_clinical_database", S "efiche_clinical_db_analytics",
         fun _ => false⟩ none (S "efiche_clinical_database") =
      (.error (S "connection failed"), [S "localhost"]) :=
  (connection_error_single_attempt
      ⟨S "localhost", 5432, S "postgres", S "postgres",
       S "efiche_clinical_database", S "efiche_clinical_db_analytics",
       fun _ => false⟩ .operational none (S "efiche_clinical_database")).2 rfl

/-- Claim C2 evaluated at the failing input (code-bug evidence): in one run
over two rows in a single batch where row 1 succeeds and row 2's encounter
INSERT raises, the per-row handler's `conn.rollback()` discards the whole
uncommitted transaction: row 1 is counted as a success and row 2's index and
truncated error are recorded, but after the batch commit the committed
database holds neither row 1's patient nor its encounter — earlier
successfully processed rows of the batch are NOT preserved.  The same input
without the injected failure commits both encounters. -/
theorem per_row_rollback_discards_earlier_rows :
    (Pipeline.ETLrun c2Env [c2Row1, c2Row2] 100
        (Pipeline.initState Pipeline.emptyTables)).stats.success = 1 ∧
    (Pipeline.ETLrun c2Env [c2Row1, c2Row2] 100
        (Pipeline.initState Pipeline.emptyTables)).stats.failed = 1 ∧
    (Pipeline.ETLrun c2Env [c2Row1, c2Row2] 100
        (Pipeline.initState Pipeline.emptyTables)).stats.errors = [(2, S "boom")] ∧
    (Pipeline.ETLrun c2Env [c2Row1, c2Row2] 100
        (Pipeline.initState Pipeline.emptyTables)).committed.encounters = [] ∧
    (Pipeline.ETLrun c2Env [c2Row1, c2Row2] 100
        (Pipeline.initState Pipeline.emptyTables)).committed.patients = [] ∧
    (Pipeline.ETLrun c2EnvOk [c2Row1, c2Row2] 100
        (Pipeline.initState Pipeline.emptyTables)).committed.encounters.length = 2 := by
  refine ⟨by decide, by decide, by decide, by decide, by decide, by decide⟩

namespace Analytics

theorem aExec_frame (env : AEnv) (w : TargetDB → TargetDB) (st : AState) :
    (aExec env w st).2.stats = st.stats ∧
    (aExec env w st).2.tgtCommitted = st.tgtCommitted ∧
    (aExec env w st).2.src = st.src := by
  rw [aExec]
  cases env.fail st.opIdx <;> exact ⟨rfl, rfl, rfl⟩

theorem aQuerySrc_frame {α : Type} (env : AEnv) (q : Pipeline.Tables → α) (st : AState) :
    (aQuerySrc env q st).2.stats = st.stats ∧
    (aQuerySrc env q st).2.tgtCommitted = st.tgtCommitted ∧
    (aQuerySrc env q st).2.src = st.src := by
  rw [aQuerySrc]
  cases env.fail st.opIdx <;> exact ⟨rfl, rfl, rfl⟩

theorem aFetchTgt_frame {α : Type} (env : AEnv) (q : TargetDB → Option α) (st : AState) :
    (aFetchTgt env q st).2.stats = st.stats ∧
    (aFetchTgt env q st).2.tgtCommitted = st.tgtCommitted ∧
    (aFetchTgt env q st).2.src = st.src := by
  rw [aFetchTgt]
  cases env.fail st.opIdx <;> exact ⟨rfl, rfl, rfl⟩

theorem aCommit_frame (env : AEnv) (st : AState) :
    (aCommit env st).2.stats = st.stats ∧ (aCommit env st).2.src = st.src := by
  rw [aCommit]
  cases env.fail st.opIdx <;> exact ⟨rfl, rfl⟩

theorem aCommit_err (env : AEnv) (st : AState) (e : List Char) (st' : AState)
    (h : aCommit env st = (.error e, st')) :
    st'.tgtCommitted = st.tgtCommitted := by
  rw [aCommit] at h
  cases hf : env.fail st.opIdx <;> rw [hf] at h
  · simp at h
  · exact (Prod.mk.injEq _ _ _ _ ▸ h).2 ▸ rfl

theorem loadRows_frame {ρ : Type} (env : AEnv) (u : ρ → TargetDB → TargetDB) :
    ∀ (rows : List ρ) (st : AState),
      (loadRows env u rows st).2.stats = st.stats ∧
      (loadRows env u rows st).2.tgtCommitted = st.tgtCommitted ∧
      (loadRows env u rows st).2.src = st.src := by
  intro rows
  induction rows with
  | nil => intro st; exact ⟨rfl, rfl, rfl⟩
  | cons r rs ih =>
    intro st
    rw [loadRows]
    rcases hstep : aExec env (u r) st with ⟨res, st₁⟩
    have hf := aExec_frame env (u r) st
    rw [hstep] at hf
    cases res with
    | error e => simpa [andThenA, hstep] using hf
    | ok _ =>
      have := ih st₁
      simp only [andThenA, hstep]
      exact ⟨this.1.trans hf.1, this.2.1.trans hf.2.1, this.2.2.trans hf.2.2⟩

theorem factLoop_frame (env : AEnv) :
    ∀ (rows : List FactSrcRow) (n : Nat) (st : AState),
      (factLoop env rows n st).2.stats = st.stats ∧
      (factLoop env rows n st).2.tgtCommitted = st.tgtCommitted ∧
      (factLoop env rows n st).2.src = st.src := by
  intro rows
  induction rows with
  | nil => intro n st; exact ⟨rfl, rfl, rfl⟩
  | cons r rs ih =>
    intro n st
    rw [factLoop]
    have hTry : (factRowTry env r st).2.stats = st.stats ∧
        (factRowTry env r st).2.tgtCommitted = st.tgtCommitted ∧
        (factRowTry env r st).2.src = st.src := by
      rw [factRowTry]
      rcases h1 : aFetchTgt env (fun t => (t.dim_patient.find?
          (fun d => d.patient_id == r.patient_id)).map (·.patient_sk)) st with ⟨r1, st₁⟩
      have hf1 := aFetchTgt_frame env (fun t => (t.dim_patient.find?
          (fun d => d.patient_id == r.patient_id)).map (·.patient_sk)) st
      rw [h1] at hf1
      rw [h1]
      cases r1 with
      | error e => simpa [andThenA] using hf1
      | ok v1 =>
        simp only [andThenA]
        rcases h2 : aFetchTgt env (fun t => (t.dim_facility.find?
            (fun d => d.facility_id == r.facility_id)).map (·.facility_sk)) st₁ with ⟨r2, st₂⟩
        have hf2 := aFetchTgt_frame env (fun t => (t.dim_facility.find?
            (fun d => d.facility_id == r.facility_id)).map (·.facility_sk)) st₁
        rw [h2] at hf2
        rw [h2]
        cases r2 with
        | error e =>
          simp only [andThenA]
          exact ⟨hf2.1.trans hf1.1, hf2.2.1.trans hf1.2.1, hf2.2.2.trans hf1.2.2⟩
        | ok v2 =>
          simp only [andThenA]
          have hc12 : st₂.stats = st.stats ∧ st₂.tgtCommitted = st.tgtCommitted ∧
              st₂.src = st.src :=
            ⟨hf2.1.trans hf1.1, hf2.2.1.trans hf1.2.1, hf2.2.2.trans hf1.2.2⟩
          rcases h3 : aFetchTgt env (fun t => (t.dim_modality.find?
              (fun d => d.modality_id == r.modality_id)).map (·.modality_sk)) st₂ with ⟨r3, st₃⟩
          have hf3 := aFetchTgt_frame env (fun t => (t.dim_modality.find?
              (fun d => d.modality_id == r.modality_id)).map (·.modality_sk)) st₂
          rw [h3] at hf3
          rw [h3]
          cases r3 with
          | error e =>
            simp only [andThenA]
            exact ⟨hf3.1.trans hc12.1, hf3.2.1.trans hc12.2.1, hf3.2.2.trans hc12.2.2⟩
          | ok v3 =>
            simp only [andThenA]
            have hc13 : st₃.stats = st.stats ∧ st₃.tgtCommitted = st.tgtCommitted ∧
                st₃.src = st.src :=
              ⟨hf3.1.trans hc12.1, hf3.2.1.trans hc12.2.1, hf3.2.2.trans hc12.2.2⟩
            cases hdid : r.diagnosis_id with
            | none =>
              simp only [andThenA]
              cases hfail : env.fail st₃.opIdx <;>
                simp [aExec, hfail, hc13.1, hc13.2.1, hc13.2.2]
            | some did =>
              simp only [andThenA]
              rcases h4 : aFetchTgt env (fun t => (t.dim_diagnosis.find?
                  (fun d => d.diagnosis_id == did)).map (·.diagnosis_sk)) st₃ with ⟨r4, st₄⟩
              have hf4 := aFetchTgt_frame env (fun t => (t.dim_diagnosis.find?
                  (fun d => d.diagnosis_id == did)).map (·.diagnosis_sk)) st₃
              rw [h4] at hf4
              rw [h4]
              cases r4 with
              | error e =>
                simp only [andThenA]
                exact ⟨hf4.1.trans hc13.1, hf4.2.1.trans hc13.2.1, hf4.2.2.trans hc13.2.2⟩
              | ok v4 =>
                simp only [andThenA]
                have hc14 : st₄.stats = st.stats ∧ st₄.tgtCommitted = st.tgtCommitted ∧
                    st₄.src = st.src :=
                  ⟨hf4.1.trans hc13.1, hf4.2.1.trans hc13.2.1, hf4.2.2.trans hc13.2.2⟩
                cases hfail : env.fail st₄.opIdx <;>
                  simp [aExec, hfail, hc14.1, hc14.2.1, hc14.2.2]
    rcases htry : factRowTry env r st with ⟨res, st₁⟩
    rw [htry] at hTry
    cases res with
    | ok _ =>
      have := ih (n + 1) st₁
      exact ⟨this.1.trans hTry.1, this.2.1.trans hTry.2.1, this.2.2.trans hTry.2.2⟩
    | error _ =>
      have := ih n st₁
      exact ⟨this.1.trans hTry.1, this.2.1.trans hTry.2.1, this.2.2.trans hTry.2.2⟩

end Analytics

namespace Analytics

theorem andThenA_err {α β : Type} (x : Except (List Char) α × AState)
    (f : α → AState → Except (List Char) β × AState) (e : List Char) (st' : AState)
    (h : andThenA x f = (.error e, st')) :
    x = (.error e, st') ∨ ∃ a st₁, x = (.ok a, st₁) ∧ f a st₁ = (.error e, st') := by
  rcases x with ⟨res, st₀⟩
  cases res with
  | error e' =>
    left
    simpa [andThenA] using h
  | ok a =>
    right
    refine ⟨a, st₀, rfl, ?_⟩
    simpa [andThenA] using h

theorem andThenA_ok {α β : Type} (x : Except (List Char) α × AState)
    (f : α → AState → Except (List Char) β × AState) (b : β) (st' : AState)
    (h : andThenA x f = (.ok b, st')) :
    ∃ a st₁, x = (.ok a, st₁) ∧ f a st₁ = (.ok b, st') := by
  rcases x with ⟨res, st₀⟩
  cases res with
  | error e' => simp [andThenA] at h
  | ok a =>
    refine ⟨a, st₀, rfl, ?_⟩
    simpa [andThenA] using h

theorem loadCatch_err (nm : List Char) (r : Except (List Char) Nat × AState)
    (e : List Char) (st' : AState) (h : loadCatch nm r = (.error e, st')) :
    ∃ st₀, r = (.error e, st₀) ∧
      st' = aRollback { st₀ with stats := { st₀.stats with
        errors := st₀.stats.errors ++ [nm ++ S ": " ++ e] } } := by
  rcases r with ⟨res, st₀⟩
  cases res with
  | ok n => simp [loadCatch] at h
  | error e' =>
    simp only [loadCatch] at h
    have h1 : e' = e := by
      have := congrArg Prod.fst h
      simpa using this
    have h2 := congrArg Prod.snd h
    simp only [] at h2
    subst h1
    exact ⟨st₀, rfl, h2.symm⟩

theorem loadCatch_ok (nm : List Char) (r : Except (List Char) Nat × AState)
    (n : Nat) (st' : AState) (h : loadCatch nm r = (.ok n, st')) :
    r = (.ok n, st') := by
  rcases r with ⟨res, st₀⟩
  cases res with
  | ok m => simpa [loadCatch] using h
  | error e => simp [loadCatch] at h

theorem dimBody_err {ρ : Type} (env : AEnv)
    (first : AState → Except (List Char) Unit × AState)
    (hfirst : ∀ s, (first s).2.stats = s.stats ∧
      (first s).2.tgtCommitted = s.tgtCommitted ∧ (first s).2.src = s.src)
    (q : Pipeline.Tables → List ρ) (u : ρ → TargetDB → TargetDB)
    (mkUpd : AState → Nat → AState)
    (st : AState) (e : List Char) (st₀ : AState)
    (h : andThenA (first st) (fun _ st =>
      andThenA (aQuerySrc env q st) (fun rows st =>
      andThenA (loadRows env u rows st) (fun _ st =>
      andThenA (aCommit env st) (fun _ st =>
      (.ok rows.length, mkUpd st rows.length))))) = (.error e, st₀)) :
    st₀.stats = st.stats ∧ st₀.tgtCommitted = st.tgtCommitted ∧ st₀.src = st.src := by
  rcases andThenA_err _ _ _ _ h with h1 | ⟨a1, st₁, hx1, h1⟩
  · have hf := hfirst st
    rw [h1] at hf
    exact hf
  · have hf1 := hfirst st
    rw [hx1] at hf1
    rcases andThenA_err _ _ _ _ h1 with h2 | ⟨rows, st₂, hx2, h2⟩
    · have hf := aQuerySrc_frame env q st₁
      rw [h2] at hf
      exact ⟨hf.1.trans hf1.1, hf.2.1.trans hf1.2.1, hf.2.2.trans hf1.2.2⟩
    · have hf2 := aQuerySrc_frame env q st₁
      rw [hx2] at hf2
      have c2 : st₂.stats = st.stats ∧ st₂.tgtCommitted = st.tgtCommitted ∧
          st₂.src = st.src :=
        ⟨hf2.1.trans hf1.1, hf2.2.1.trans hf1.2.1, hf2.2.2.trans hf1.2.2⟩
      rcases andThenA_err _ _ _ _ h2 with h3 | ⟨a3, st₃, hx3, h3⟩
      · have hf := loadRows_frame env u rows st₂
        rw [h3] at hf
        exact ⟨hf.1.trans c2.1, hf.2.1.trans c2.2.1, hf.2.2.trans c2.2.2⟩
      · have hf3 := loadRows_frame env u rows st₂
        rw [hx3] at hf3
        have c3 : st₃.stats = st.stats ∧ st₃.tgtCommitted = st.tgtCommitted ∧
            st₃.src = st.src :=
          ⟨hf3.1.trans c2.1, hf3.2.1.trans c2.2.1, hf3.2.2.trans c2.2.2⟩
        rcases andThenA_err _ _ _ _ h3 with h4 | ⟨a4, st₄, hx4, h4⟩
        · have hf := aCommit_frame env st₃
          rw [h4] at hf
          have hc := aCommit_err env st₃ e st₀ h4
          exact ⟨hf.1.trans c3.1, hc.trans c3.2.1, hf.2.trans c3.2.2⟩
        · simp at h4

theorem dimBody_ok {ρ : Type} (env : AEnv)
    (first : AState → Except (List Char) Unit × AState)
    (hfirst : ∀ s, (first s).2.stats = s.stats ∧
      (first s).2.tgtCommitted = s.tgtCommitted ∧ (first s).2.src = s.src)
    (q : Pipeline.Tables → List ρ) (u : ρ → TargetDB → TargetDB)
    (mkUpd : AState → Nat → AState)
    (st : AState) (n : Nat) (st₀ : AState)
    (h : andThenA (first st) (fun _ st =>
      andThenA (aQuerySrc env q st) (fun rows st =>
      andThenA (loadRows env u rows st) (fun _ st =>
      andThenA (aCommit env st) (fun _ st =>
      (.ok rows.length, mkUpd st rows.length))))) = (.ok n, st₀)) :
    ∃ stPre, st₀ = mkUpd stPre n ∧ stPre.stats = st.stats ∧ stPre.src = st.src := by
  obtain ⟨a1, st₁, hx1, h1⟩ := andThenA_ok _ _ _ _ h
  have hf1 := hfirst st
  rw [hx1] at hf1
  obtain ⟨rows, st₂, hx2, h2⟩ := andThenA_ok _ _ _ _ h1
  have hf2 := aQuerySrc_frame env q st₁
  rw [hx2] at hf2
  obtain ⟨a3, st₃, hx3, h3⟩ := andThenA_ok _ _ _ _ h2
  have hf3 := loadRows_frame env u rows st₂
  rw [hx3] at hf3
  obtain ⟨a4, st₄, hx4, h4⟩ := andThenA_ok _ _ _ _ h3
  have hf4 := aCommit_frame env st₃
  rw [hx4] at hf4
  have hn : rows.length = n := by
    have := congrArg Prod.fst h4
    simpa using this
  have hst : st₀ = mkUpd st₄ rows.length := by
    have := congrArg Prod.snd h4
    simpa using this.symm
  refine ⟨st₄, by rw [hst, hn], ?_, ?_⟩
  · exact ((hf4.1.trans hf3.1).trans hf2.1).trans hf1.1
  · exact ((hf4.2.trans hf3.2.2).trans hf2.2.2).trans hf1.2.2

end Analytics

namespace Analytics

theorem truncFrame (env : AEnv) (mode : EtlMode) (w : TargetDB → TargetDB) (s : AState) :
    (if mode = .full then aExec env w s else (.ok (), s)).2.stats = s.stats ∧
    (if mode = .full then aExec env w s else (.ok (), s)).2.tgtCommitted = s.tgtCommitted ∧
    (if mode = .full then aExec env w s else (.ok (), s)).2.src = s.src := by
  split
  · exact aExec_frame env w s
  · exact ⟨rfl, rfl, rfl⟩

theorem load_dim_patient_spec (mode : EtlMode) (env : AEnv) (st : AState) :
    (∀ e st', load_dim_patient mode env st = (.error e, st') →
      st'.stats.errors = st.stats.errors ++ [S "dim_patient" ++ S ": " ++ e] ∧
      st'.stats.dimensions_loaded = st.stats.dimensions_loaded ∧
      st'.stats.facts_loaded = st.stats.facts_loaded ∧
      st'.stats.errorMsg = st.stats.errorMsg ∧
      st'.src = st.src) ∧
    (∀ n st', load_dim_patient mode env st = (.ok n, st') →
      st'.stats.errors = st.stats.errors ∧
      st'.stats.dimensions_loaded = st.stats.dimensions_loaded ++ [(S "dim_patient", n)] ∧
      st'.stats.facts_loaded = st.stats.facts_loaded ∧
      st'.stats.errorMsg = st.stats.errorMsg ∧
      st'.src = st.src) := by
  constructor
  · intro e st' h
    rw [load_dim_patient] at h
    obtain ⟨st₀, hb, hst'⟩ := loadCatch_err _ _ _ _ h
    have hf := dimBody_err env
      (fun s => if mode = .full then
        aExec env (fun t => { t with dim_patient := [] }) s else (.ok (), s))
      (fun s => truncFrame env mode _ s)
      (fun s => s.patients) upsertDimPatient
      (fun s n => { s with stats := { s.stats with dimensions_loaded :=
        s.stats.dimensions_loaded ++ [(S "dim_patient", n)] } })
      st e st₀ hb
    subst hst'
    refine ⟨?_, ?_, ?_, ?_, ?_⟩ <;> simp [aRollback, hf.1, hf.2.1, hf.2.2]
  · intro n st' h
    rw [load_dim_patient] at h
    have hb := loadCatch_ok _ _ _ _ h
    obtain ⟨stPre, hupd, hstats, hsrc⟩ := dimBody_ok env
      (fun s => if mode = .full then
        aExec env (fun t => { t with dim_patient := [] }) s else (.ok (), s))
      (fun s => truncFrame env mode _ s)
      (fun s => s.patients) upsertDimPatient
      (fun s n => { s with stats := { s.stats with dimensions_loaded :=
        s.stats.dimensions_loaded ++ [(S "dim_patient", n)] } })
      st n st' hb
    subst hupd
    refine ⟨?_, ?_, ?_, ?_, ?_⟩ <;> simp [hstats, hsrc]

theorem load_dim_facility_spec (mode : EtlMode) (env : AEnv) (st : AState) :
    (∀ e st', load_dim_facility mode env st = (.error e, st') →
      st'.stats.errors = st.stats.errors ++ [S "dim_facility" ++ S ": " ++ e] ∧
      st'.stats.dimensions_loaded = st.stats.dimensions_loaded ∧
      st'.stats.facts_loaded = st.stats.facts_loaded ∧
      st'.stats.errorMsg = st.stats.errorMsg ∧
      st'.src = st.src) ∧
    (∀ n st', load_dim_facility mode env st = (.ok n, st') →
      st'.stats.errors = st.stats.errors ∧
      st'.stats.dimensions_loaded = st.stats.dimensions_loaded ++ [(S "dim_facility", n)] ∧
      st'.stats.facts_loaded = st.stats.facts_loaded ∧
      st'.stats.errorMsg = st.stats.errorMsg ∧
      st'.src = st.src) := by
  constructor
  · intro e st' h
    rw [load_dim_facility] at h
    obtain ⟨st₀, hb, hst'⟩ := loadCatch_err _ _ _ _ h
    have hf := dimBody_err env
      (fun s => if mode = .full then
        aExec env (fun t => { t with dim_facility := [] }) s else (.ok (), s))
      (fun s => truncFrame env mode _ s)
      (fun s => s.facility_master) upsertDimFacility
      (fun s n => { s with stats := { s.stats with dimensions_loaded :=
        s.stats.dimensions_loaded ++ [(S "dim_facility", n)] } })
      st e st₀ hb
    subst hst'
    refine ⟨?_, ?_, ?_, ?_, ?_⟩ <;> simp [aRollback, hf.1, hf.2.1, hf.2.2]
  · intro n st' h
    rw [load_dim_facility] at h
    have hb := loadCatch_ok _ _ _ _ h
    obtain ⟨stPre, hupd, hstats, hsrc⟩ := dimBody_ok env
      (fun s => if mode = .full then
        aExec env (fun t => { t with dim_facility := [] }) s else (.ok (), s))
      (fun s => truncFrame env mode _ s)
      (fun s => s.facility_master) upsertDimFacility
      (fun s n => { s with stats := { s.stats with dimensions_loaded :=
        s.stats.dimensions_loaded ++ [(S "dim_facility", n)] } })
      st n st' hb
    subst hupd
    refine ⟨?_, ?_, ?_, ?_, ?_⟩ <;> simp [hstats, hsrc]

theorem load_dim_modality_spec (mode : EtlMode) (env : AEnv) (st : AState) :
    (∀ e st', load_dim_modality mode env st = (.error e, st') →
      st'.stats.errors = st.stats.errors ++ [S "dim_modality" ++ S ": " ++ e] ∧
      st'.stats.dimensions_loaded = st.stats.dimensions_loaded ∧
      st'.stats.facts_loaded = st.stats.facts_loaded ∧
      st'.stats.errorMsg = st.stats.errorMsg ∧
      st'.src = st.src) ∧
    (∀ n st', load_dim_modality mode env st = (.ok n, st') →
      st'.stats.errors = st.stats.errors ∧
      st'.stats.dimensions_loaded = st.stats.dimensions_loaded ++ [(S "dim_modality", n)] ∧
      st'.stats.facts_loaded = st.stats.facts_loaded ∧
      st'.stats.errorMsg = st.stats.errorMsg ∧
      st'.src = st.src) := by
  constructor
  · intro e st' h
    rw [load_dim_modality] at h
    obtain ⟨st₀, hb, hst'⟩ := loadCatch_err _ _ _ _ h
    have hf := dimBody_err env
      (fun s => if mode = .full then
        aExec env (fun t => { t with dim_modality := [] }) s else (.ok (), s))
      (fun s => truncFrame env mode _ s)
      (fun s => s.modality_master) upsertDimModality
      (fun s n => { s with stats := { s.stats with dimensions_loaded :=
        s.stats.dimensions_loaded ++ [(S "dim_modality", n)] } })
      st e st₀ hb
    subst hst'
    refine ⟨?_, ?_, ?_, ?_, ?_⟩ <;> simp [aRollback, hf.1, hf.2.1, hf.2.2]
  · intro n st' h
    rw [load_dim_modality] at h
    have hb := loadCatch_ok _ _ _ _ h
    obtain ⟨stPre, hupd, hstats, hsrc⟩ := dimBody_ok env
      (fun s => if mode = .full then
        aExec env (fun t => { t with dim_modality := [] }) s else (.ok (), s))
      (fun s => truncFrame env mode _ s)
      (fun s => s.modality_master) upsertDimModality
      (fun s n => { s with stats := { s.stats with dimensions_loaded :=
        s.stats.dimensions_loaded ++ [(S "dim_modality", n)] } })
      st n st' hb
    subst hupd
    refine ⟨?_, ?_, ?_, ?_, ?_⟩ <;> simp [hstats, hsrc]

theorem load_dim_diagnosis_spec (mode : EtlMode) (env : AEnv) (st : AState) :
    (∀ e st', load_dim_diagnosis mode env st = (.error e, st') →
      st'.stats.errors = st.stats.errors ++ [S "dim_diagnosis" ++ S ": " ++ e] ∧
      st'.stats.dimensions_loaded = st.stats.dimensions_loaded ∧
      st'.stats.facts_loaded = st.stats.facts_loaded ∧
      st'.stats.errorMsg = st.stats.errorMsg ∧
      st'.src = st.src) ∧
    (∀ n st', load_dim_diagnosis mode env st = (.ok n, st') →
      st'.stats.errors = st.stats.errors ∧
      st'.stats.dimensions_loaded = st.stats.dimensions_loaded ++ [(S "dim_diagnosis", n)] ∧
      st'.stats.facts_loaded = st.stats.facts_loaded ∧
      st'.stats.errorMsg = st.stats.errorMsg ∧
      st'.src = st.src) := by
  constructor
  · intro e st' h
    rw [load_dim_diagnosis] at h
    obtain ⟨st₀, hb, hst'⟩ := loadCatch_err _ _ _ _ h
    have hf := dimBody_err env
      (fun s => if mode = .full then
        aExec env (fun t => { t with dim_diagnosis := [] }) s else (.ok (), s))
      (fun s => truncFrame env mode _ s)
      (fun s => s.diagnosis_master) upsertDimDiagnosis
      (fun s n => { s with stats := { s.stats with dimensions_loaded :=
        s.stats.dimensions_loaded ++ [(S "dim_diagnosis", n)] } })
      st e st₀ hb
    subst hst'
    refine ⟨?_, ?_, ?_, ?_, ?_⟩ <;> simp [aRollback, hf.1, hf.2.1, hf.2.2]
  · intro n st' h
    rw [load_dim_diagnosis] at h
    have hb := loadCatch_ok _ _ _ _ h
    obtain ⟨stPre, hupd, hstats, hsrc⟩ := dimBody_ok env
      (fun s => if mode = .full then
        aExec env (fun t => { t with dim_diagnosis := [] }) s else (.ok (), s))
      (fun s => truncFrame env mode _ s)
      (fun s => s.diagnosis_master) upsertDimDiagnosis
      (fun s n => { s with stats := { s.stats with dimensions_loaded :=
        s.stats.dimensions_loaded ++ [(S "dim_diagnosis", n)] } })
      st n st' hb
    subst hupd
    refine ⟨?_, ?_, ?_, ?_, ?_⟩ <;> simp [hstats, hsrc]

theorem load_fact_language_spec (mode : EtlMode) (env : AEnv) (st : AState) :
    (∀ e st', load_fact_language_usage mode env st = (.error e, st') →
      st'.stats.errors = st.stats.errors ++ [S "fact_language_usage" ++ S ": " ++ e] ∧
      st'.stats.dimensions_loaded = st.stats.dimensions_loaded ∧
      st'.stats.facts_loaded = st.stats.facts_loaded ∧
      st'.stats.errorMsg = st.stats.errorMsg ∧
      st'.src = st.src) ∧
    (∀ n st', load_fact_language_usage mode env st = (.ok n, st') →
      st'.stats.errors = st.stats.errors ∧
      st'.stats.dimensions_loaded = st.stats.dimensions_loaded ∧
      st'.stats.facts_loaded = st.stats.facts_loaded ++ [(S "fact_language_usage", n)] ∧
      st'.stats.errorMsg = st.stats.errorMsg ∧
      st'.src = st.src) := by
  constructor
  · intro e st' h
    rw [load_fact_language_usage] at h
    obtain ⟨st₀, hb, hst'⟩ := loadCatch_err _ _ _ _ h
    have hf := dimBody_err env
      (fun s => if mode = .full then
        aExec env (fun t => { t with fact_language_usage := [] }) s else (.ok (), s))
      (fun s => truncFrame env mode _ s)
      extract_fact_language upsertFactLang
      (fun s n => { s with stats := { s.stats with facts_loaded :=
        s.stats.facts_loaded ++ [(S "fact_language_usage", n)] } })
      st e st₀ hb
    subst hst'
    refine ⟨?_, ?_, ?_, ?_, ?_⟩ <;> simp [aRollback, hf.1, hf.2.1, hf.2.2]
  · intro n st' h
    rw [load_fact_language_usage] at h
    have hb := loadCatch_ok _ _ _ _ h
    obtain ⟨stPre, hupd, hstats, hsrc⟩ := dimBody_ok env
      (fun s => if mode = .full then
        aExec env (fun t => { t with fact_language_usage := [] }) s else (.ok (), s))
      (fun s => truncFrame env mode _ s)
      extract_fact_language upsertFactLang
      (fun s n => { s with stats := { s.stats with facts_loaded :=
        s.stats.facts_loaded ++ [(S "fact_language_usage", n)] } })
      st n st' hb
    subst hupd
    refine ⟨?_, ?_, ?_, ?_, ?_⟩ <;> simp [hstats, hsrc]

end Analytics

namespace Analytics

theorem load_fact_procedure_spec (mode : EtlMode) (env : AEnv) (hours : Nat)
    (st : AState) :
    (∀ e st', load_fact_procedure mode env hours st = (.error e, st') →
      st'.stats.errors = st.stats.errors ++ [S "fact_procedure" ++ S ": " ++ e] ∧
      st'.stats.dimensions_loaded = st.stats.dimensions_loaded ∧
      st'.stats.facts_loaded = st.stats.facts_loaded ∧
      st'.stats.errorMsg = st.stats.errorMsg ∧
      st'.src = st.src) ∧
    (∀ n st', load_fact_procedure mode env hours st = (.ok n, st') →
      st'.stats.errors = st.stats.errors ∧
      st'.stats.dimensions_loaded = st.stats.dimensions_loaded ∧
      st'.stats.facts_loaded = st.stats.facts_loaded ++ [(S "fact_procedure", n)] ∧
      st'.stats.errorMsg = st.stats.errorMsg ∧
      st'.src = st.src) := by
  constructor
  · intro e st' h
    rw [load_fact_procedure] at h
    obtain ⟨st₀, hb, hst'⟩ := loadCatch_err _ _ _ _ h
    have hfin : st₀.stats = st.stats ∧ st₀.tgtCommitted = st.tgtCommitted ∧
        st₀.src = st.src := by
      rcases andThenA_err _ _ _ _ hb with h1 | ⟨a1, st₁, hx1, h1⟩
      · have hf := truncFrame env mode (fun t => { t with fact_procedure := [] }) st
        rw [h1] at hf
        exact hf
      · have hf1 := truncFrame env mode (fun t => { t with fact_procedure := [] }) st
        rw [hx1] at hf1
        rcases andThenA_err _ _ _ _ h1 with h2 | ⟨rows, st₂, hx2, h2⟩
        · have hf := aQuerySrc_frame env (fun s => extract_fact_procedure s
            (if mode = .full then none else some (env.now - hours))) st₁
          rw [h2] at hf
          exact ⟨hf.1.trans hf1.1, hf.2.1.trans hf1.2.1, hf.2.2.trans hf1.2.2⟩
        · have hf2 := aQuerySrc_frame env (fun s => extract_fact_procedure s
            (if mode = .full then none else some (env.now - hours))) st₁
          rw [hx2] at hf2
          have c2 : st₂.stats = st.stats ∧ st₂.tgtCommitted = st.tgtCommitted ∧
              st₂.src = st.src :=
            ⟨hf2.1.trans hf1.1, hf2.2.1.trans hf1.2.1, hf2.2.2.trans hf1.2.2⟩
          rcases andThenA_err _ _ _ _ h2 with h3 | ⟨a3, st₃, hx3, h3⟩
          · have hl := factLoop_frame env rows 0 st₂
            have hcf := aCommit_frame env (factLoop env rows 0 st₂).2
            rw [h3] at hcf
            have hce := aCommit_err env (factLoop env rows 0 st₂).2 e st₀ h3
            exact ⟨(hcf.1.trans hl.1).trans c2.1, (hce.trans hl.2.1).trans c2.2.1,
              (hcf.2.trans hl.2.2).trans c2.2.2⟩
          · simp at h3
    subst hst'
    refine ⟨?_, ?_, ?_, ?_, ?_⟩ <;> simp [aRollback, hfin.1, hfin.2.1, hfin.2.2]
  · intro n st' h
    rw [load_fact_procedure] at h
    have hb := loadCatch_ok _ _ _ _ h
    obtain ⟨a1, st₁, hx1, h1⟩ := andThenA_ok _ _ _ _ hb
    have hf1 := truncFrame env mode (fun t => { t with fact_procedure := [] }) st
    rw [hx1] at hf1
    obtain ⟨rows, st₂, hx2, h2⟩ := andThenA_ok _ _ _ _ h1
    have hf2 := aQuerySrc_frame env (fun s => extract_fact_procedure s
      (if mode = .full then none else some (env.now - hours))) st₁
    rw [hx2] at hf2
    obtain ⟨a3, st₃, hx3, h3⟩ := andThenA_ok _ _ _ _ h2
    have hl := factLoop_frame env rows 0 st₂
    have hcf := aCommit_frame env (factLoop env rows 0 st₂).2
    rw [hx3] at hcf
    have hstats3 : st₃.stats = st.stats :=
      ((hcf.1.trans hl.1).trans hf2.1).trans hf1.1
    have hsrc3 : st₃.src = st.src :=
      ((hcf.2.trans hl.2.2).trans hf2.2.2).trans hf1.2.2
    have hn : (factLoop env rows 0 st₂).1 = n := by
      have := congrArg Prod.fst h3
      simpa using this
    have hst : st' = { st₃ with stats := { st₃.stats with facts_loaded :=
        st₃.stats.facts_loaded ++ [(S "fact_procedure", (factLoop env rows 0 st₂).1)] } } := by
      have := congrArg Prod.snd h3
      simpa using this.symm
    subst hst
    refine ⟨?_, ?_, ?_, ?_, ?_⟩ <;> simp [hstats3, hsrc3, hn]

end Analytics

/-- Counterexample for C1: with the extraction statement of
`load_dim_patient` raising (mode incremental, a facility and a patient
present in the source), the failure is recorded in the aggregate error list
— but the engine does NOT continue: no remaining dimension or fact table is
loaded (`dimensions_loaded`/`facts_loaded` stay empty and `dim_facility`
stays empty although the source holds a facility and no facility-load
failure was injected), and the run returns with the stats `error` key set. -/
theorem dim_failure_aborts_remaining_loads :
    (Analytics.runAnalytics .incremental c1Env
        (Analytics.initAState c1Src Analytics.emptyTarget)).1.errors =
      [S "dim_patient: boom"] ∧
    (Analytics.runAnalytics .incremental c1Env
        (Analytics.initAState c1Src Analytics.emptyTarget)).1.dimensions_loaded = [] ∧
    (Analytics.runAnalytics .incremental c1Env
        (Analytics.initAState c1Src Analytics.emptyTarget)).1.facts_loaded = [] ∧
    (Analytics.runAnalytics .incremental c1Env
        (Analytics.initAState c1Src Analytics.emptyTarget)).1.errorMsg =
      some (S "boom") ∧
    (Analytics.runAnalytics .incremental c1Env
        (Analytics.initAState c1Src Analytics.emptyTarget)).2.tgt.dim_facility = [] ∧
    c1Src.facility_master ≠ [] := by
  refine ⟨by decide, by decide, by decide, by decide, by decide, by decide⟩

/-- Claim C1 (amended): in `TwoDatabaseAnalyticsETL.run`, a failure loading
one dimension or fact table is caught and recorded (with the failing entity
name) in the aggregate error list, but it ABORTS the remaining
dimension/fact loads instead of continuing: for every run from a fresh
stats state, whichever load fails first leaves exactly its own entry in the
error list, no loaded-count entries for any later table, and the run
returns the stats with the `error` key set (rather than raising). -/
theorem analytics_per_table_error_aborts_run (mode : Analytics.EtlMode)
    (env : Analytics.AEnv) (st : Analytics.AState)
    (h0 : st.stats = ⟨[], [], [], none⟩) :
    (∀ e st₁, Analytics.load_dim_patient mode env st = (.error e, st₁) →
      (Analytics.runAnalytics mode env st).1.errors =
        [S "dim_patient" ++ S ": " ++ e] ∧
      (Analytics.runAnalytics mode env st).1.errorMsg = some e ∧
      (Analytics.runAnalytics mode env st).1.dimensions_loaded = [] ∧
      (Analytics.runAnalytics mode env st).1.facts_loaded = []) ∧
    (∀ n₁ st₁ e st₂, Analytics.load_dim_patient mode env st = (.ok n₁, st₁) →
      Analytics.load_dim_facility mode env st₁ = (.error e, st₂) →
      (Analytics.runAnalytics mode env st).1.errors =
        [S "dim_facility" ++ S ": " ++ e] ∧
      (Analytics.runAnalytics mode env st).1.errorMsg = some e ∧
      (Analytics.runAnalytics mode env st).1.dimensions_loaded =
        [(S "dim_patient", n₁)] ∧
      (Analytics.runAnalytics mode env st).1.facts_loaded = []) ∧
    (∀ n₁ st₁ n₂ st₂ e st₃, Analytics.load_dim_patient mode env st = (.ok n₁, st₁) →
      Analytics.load_dim_facility mode env st₁ = (.ok n₂, st₂) →
      Analytics.load_dim_modality mode env st₂ = (.error e, st₃) →
      (Analytics.runAnalytics mode env st).1.errors =
        [S "dim_modality" ++ S ": " ++ e] ∧
      (Analytics.runAnalytics mode env st).1.errorMsg = some e ∧
      (Analytics.runAnalytics mode env st).1.dimensions_loaded =
        [(S "dim_patient", n₁), (S "dim_facility", n₂)] ∧
      (Analytics.runAnalytics mode env st).1.facts_loaded = []) ∧
    (∀ n₁ st₁ n₂ st₂ n₃ st₃ e st₄,
      Analytics.load_dim_patient mode env st = (.ok n₁, st₁) →
      Analytics.load_dim_facility mode env st₁ = (.ok n₂, st₂) →
      Analytics.load_dim_modality mode env st₂ = (.ok n₃, st₃) →
      Analytics.load_dim_diagnosis mode env st₃ = (.error e, st₄) →
      (Analytics.runAnalytics mode env st).1.errors =
        [S "dim_diagnosis" ++ S ": " ++ e] ∧
      (Analytics.runAnalytics mode env st).1.errorMsg = some e ∧
      (Analytics.runAnalytics mode env st).1.dimensions_loaded =
        [(S "dim_patient", n₁), (S "dim_facility", n₂), (S "dim_modality", n₃)] ∧
      (Analytics.runAnalytics mode env st).1.facts_loaded = []) ∧
    (∀ n₁ st₁ n₂ st₂ n₃ st₃ n₄ st₄ e st₅,
      Analytics.load_dim_patient mode env st = (.ok n₁, st₁) →
      Analytics.load_dim_facility mode env st₁ = (.ok n₂, st₂) →
      Analytics.load_dim_modality mode env st₂ = (.ok n₃, st₃) →
      Analytics.load_dim_diagnosis mode env st₃ = (.ok n₄, st₄) →
      Analytics.load_fact_procedure mode env 24 st₄ = (.error e, st₅) →
      (Analytics.runAnalytics mode env st).1.errors =
        [S "fact_procedure" ++ S ": " ++ e] ∧
      (Analytics.runAnalytics mode env st).1.errorMsg = some e ∧
      (Analytics.runAnalytics mode env st).1.dimensions_loaded =
        [(S "dim_patient", n₁), (S "dim_facility", n₂), (S "dim_modality", n₃),
         (S "dim_diagnosis", n₄)] ∧
      (Analytics.runAnalytics mode env st).1.facts_loaded = []) ∧
    (∀ n₁ st₁ n₂ st₂ n₃ st₃ n₄ st₄ n₅ st₅ e st₆,
      Analytics.load_dim_patient mode env st = (.ok n₁, st₁) →
      Analytics.load_dim_facility mode env st₁ = (.ok n₂, st₂) →
      Analytics.load_dim_modality mode env st₂ = (.ok n₃, st₃) →
      Analytics.load_dim_diagnosis mode env st₃ = (.ok n₄, st₄) →
      Analytics.load_fact_procedure mode env 24 st₄ = (.ok n₅, st₅) →
      Analytics.load_fact_language_usage mode env st₅ = (.error e, st₆) →
      (Analytics.runAnalytics mode env st).1.errors =
        [S "fact_language_usage" ++ S ": " ++ e] ∧
      (Analytics.runAnalytics mode env st).1.errorMsg = some e ∧
      (Analytics.runAnalytics mode env st).1.dimensions_loaded =
        [(S "dim_patient", n₁), (S "dim_facility", n₂), (S "dim_modality", n₃),
         (S "dim_diagnosis", n₄)] ∧
      (Analytics.runAnalytics mode env st).1.facts_loaded =
        [(S "fact_procedure", n₅)]) := by
  refine ⟨?_, ?_, ?_, ?_, ?_, ?_⟩
  · intro e st₁ h1
    obtain ⟨e1, d1, f1, m1, _⟩ := (Analytics.load_dim_patient_spec mode env st).1 e st₁ h1
    rw [Analytics.runAnalytics, h1]
    simp only [Analytics.andThenA]
    refine ⟨?_, ?_, ?_, ?_⟩ <;> simp [e1, d1, f1, m1, h0]
  · intro n₁ st₁ e st₂ h1 h2
    obtain ⟨e1, d1, f1, m1, _⟩ := (Analytics.load_dim_patient_spec mode env st).2 n₁ st₁ h1
    obtain ⟨e2, d2, f2, m2, _⟩ := (Analytics.load_dim_facility_spec mode env st₁).1 e st₂ h2
    rw [Analytics.runAnalytics, h1]
    simp only [Analytics.andThenA]
    rw [h2]
    simp only [Analytics.andThenA]
    refine ⟨?_, ?_, ?_, ?_⟩ <;> simp [e1, d1, f1, m1, e2, d2, f2, m2, h0]
  · intro n₁ st₁ n₂ st₂ e st₃ h1 h2 h3
    obtain ⟨e1, d1, f1, m1, _⟩ := (Analytics.load_dim_patient_spec mode env st).2 n₁ st₁ h1
    obtain ⟨e2, d2, f2, m2, _⟩ := (Analytics.load_dim_facility_spec mode env st₁).2 n₂ st₂ h2
    obtain ⟨e3, d3, f3, m3, _⟩ := (Analytics.load_dim_modality_spec mode env st₂).1 e st₃ h3
    rw [Analytics.runAnalytics, h1]
    simp only [Analytics.andThenA]
    rw [h2]
    simp only [Analytics.andThenA]
    rw [h3]
    simp only [Analytics.andThenA]
    refine ⟨?_, ?_, ?_, ?_⟩ <;>
      simp [e1, d1, f1, m1, e2, d2, f2, m2, e3, d3, f3, m3, h0]
  · intro n₁ st₁ n₂ st₂ n₃ st₃ e st₄ h1 h2 h3 h4
    obtain ⟨e1, d1, f1, m1, _⟩ := (Analytics.load_dim_patient_spec mode env st).2 n₁ st₁ h1
    obtain ⟨e2, d2, f2, m2, _⟩ := (Analytics.load_dim_facility_spec mode env st₁).2 n₂ st₂ h2
    obtain ⟨e3, d3, f3, m3, _⟩ := (Analytics.load_dim_modality_spec mode env st₂).2 n₃ st₃ h3
    obtain ⟨e4, d4, f4, m4, _⟩ := (Analytics.load_dim_diagnosis_spec mode env st₃).1 e st₄ h4
    rw [Analytics.runAnalytics, h1]
    simp only [Analytics.andThenA]
    rw [h2]
    simp only [Analytics.andThenA]
    rw [h3]
    simp only [Analytics.andThenA]
    rw [h4]
    simp only [Analytics.andThenA]
    refine ⟨?_, ?_, ?_, ?_⟩ <;>
      simp [e1, d1, f1, m1, e2, d2, f2, m2, e3, d3, f3, m3, e4, d4, f4, m4, h0]
  · intro n₁ st₁ n₂ st₂ n₃ st₃ n₄ st₄ e st₅ h1 h2 h3 h4 h5
    obtain ⟨e1, d1, f1, m1, _⟩ := (Analytics.load_dim_patient_spec mode env st).2 n₁ st₁ h1
    obtain ⟨e2, d2, f2, m2, _⟩ := (Analytics.load_dim_facility_spec mode env st₁).2 n₂ st₂ h2
    obtain ⟨e3, d3, f3, m3, _⟩ := (Analytics.load_dim_modality_spec mode env st₂).2 n₃ st₃ h3
    obtain ⟨e4, d4, f4, m4, _⟩ := (Analytics.load_dim_diagnosis_spec mode env st₃).2 n₄ st₄ h4
    obtain ⟨e5, d5, f5, m5, _⟩ := (Analytics.load_fact_procedure_spec mode env 24 st₄).1 e st₅ h5
    rw [Analytics.runAnalytics, h1]
    simp only [Analytics.andThenA]
    rw [h2]
    simp only [Analytics.andThenA]
    rw [h3]
    simp only [Analytics.andThenA]
    rw [h4]
    simp only [Analytics.andThenA]
    rw [h5]
    simp only [Analytics.andThenA]
    refine ⟨?_, ?_, ?_, ?_⟩ <;>
      simp [e1, d1, f1, m1, e2, d2, f2, m2, e3, d3, f3, m3, e4, d4, f4, m4,
        e5, d5, f5, m5, h0]
  · intro n₁ st₁ n₂ st₂ n₃ st₃ n₄ st₄ n₅ st₅ e st₆ h1 h2 h3 h4 h5 h6
    obtain ⟨e1, d1, f1, m1, _⟩ := (Analytics.load_dim_patient_spec mode env st).2 n₁ st₁ h1
    obtain ⟨e2, d2, f2, m2, _⟩ := (Analytics.load_dim_facility_spec mode env st₁).2 n₂ st₂ h2
    obtain ⟨e3, d3, f3, m3, _⟩ := (Analytics.load_dim_modality_spec mode env st₂).2 n₃ st₃ h3
    obtain ⟨e4, d4, f4, m4, _⟩ := (Analytics.load_dim_diagnosis_spec mode env st₃).2 n₄ st₄ h4
    obtain ⟨e5, d5, f5, m5, _⟩ := (Analytics.load_fact_procedure_spec mode env 24 st₄).2 n₅ st₅ h5
    obtain ⟨e6, d6, f6, m6, _⟩ := (Analytics.load_fact_language_spec mode env st₅).1 e st₆ h6
    rw [Analytics.runAnalytics, h1]
    simp only [Analytics.andThenA]
    rw [h2]
    simp only [Analytics.andThenA]
    rw [h3]
    simp only [Analytics.andThenA]
    rw [h4]
    simp only [Analytics.andThenA]
    rw [h5]
    simp only [Analytics.andThenA]
    rw [h6]
    simp only [Analytics.andThenA]
    refine ⟨?_, ?_, ?_, ?_⟩ <;>
      simp [e1, d1, f1, m1, e2, d2, f2, m2, e3, d3, f3, m3, e4, d4, f4, m4,
        e5, d5, f5, m5, e6, d6, f6, m6, h0]

/-- Witness for the amended C1: the concrete failing run of the
counterexample environment, through the amended theorem's first clause. -/
theorem analytics_per_table_error_aborts_run_witness :
    (Analytics.runAnalytics .incremental c1Env
        (Analytics.initAState c1Src Analytics.emptyTarget)).1.errors =
      [S "dim_patient" ++ S ": " ++ S "boom"] ∧
    (Analytics.runAnalytics .incremental c1Env
        (Analytics.initAState c1Src Analytics.emptyTarget)).1.errorMsg =
      some (S "boom") ∧
    (Analytics.runAnalytics .incremental c1Env
        (Analytics.initAState c1Src Analytics.emptyTarget)).1.dimensions_loaded = [] ∧
    (Analytics.runAnalytics .incremental c1Env
        (Analytics.initAState c1Src Analytics.emptyTarget)).1.facts_loaded = [] :=
  (analytics_per_table_error_aborts_run .incremental c1Env
      (Analytics.initAState c1Src Analytics.emptyTarget) (by decide)).1
    (S "boom")
    (Analytics.load_dim_patient .incremental c1Env
      (Analytics.initAState c1Src Analytics.emptyTarget)).2
    (by rfl)

namespace Pipeline

theorem get_facility_idem (env : Env) (name loc : List Char) (st : PState)
    (i : Nat) (st₁ : PState) (hf : ∀ n, env.fail n = none)
    (h : get_facility env name loc st = (.ok i, st₁)) :
    get_facility env name loc st₁ = (.ok i, st₁) ∧
    st₁.cur.facility_master.length ≤ st.cur.facility_master.length + 1 := by
  simp only [get_facility, dbFetchOne, hf] at h
  split at h
  · rename_i fid heq
    simp only [Prod.mk.injEq, Except.ok.injEq] at h
    obtain ⟨rfl, rfl⟩ := h
    exact ⟨by simp [get_facility, heq], Nat.le_succ _⟩
  · rename_i heq
    split at h
    · rename_i fid heq2
      simp only [catchReraise, Prod.mk.injEq, Except.ok.injEq] at h
      obtain ⟨rfl, rfl⟩ := h
      refine ⟨?_, Nat.le_succ _⟩
      simp [get_facility, lookupA_setA_self]
    · rename_i heq2
      simp only [freshUuid, dbExecute, hf, andThen, dbCommit, catchReraise,
        Prod.mk.injEq, Except.ok.injEq] at h
      obtain ⟨rfl, rfl⟩ := h
      refine ⟨?_, le_trans (Nat.le_of_eq (by simp)) (le_refl _)⟩
      simp [get_facility, lookupA_setA_self]

end Pipeline

namespace Pipeline

theorem get_modality_idem (env : Env) (code : List Char) (st : PState)
    (i : Nat) (st₁ : PState) (hf : ∀ n, env.fail n = none)
    (h : get_modality env code st = (.ok i, st₁)) :
    get_modality env code st₁ = (.ok i, st₁) ∧
    st₁.cur.modality_master.length ≤ st.cur.modality_master.length + 1 := by
  simp only [get_modality, dbFetchOne, hf] at h
  split at h
  · rename_i mid heq
    simp only [Prod.mk.injEq, Except.ok.injEq] at h
    obtain ⟨rfl, rfl⟩ := h
    exact ⟨by simp [get_modality, heq], Nat.le_succ _⟩
  · rename_i heq
    split at h
    · rename_i mid heq2
      simp only [catchReraise, Prod.mk.injEq, Except.ok.injEq] at h
      obtain ⟨rfl, rfl⟩ := h
      refine ⟨?_, Nat.le_succ _⟩
      simp [get_modality, lookupA_setA_self]
    · rename_i heq2
      simp only [freshUuid, dbExecute, hf, andThen, dbCommit, catchReraise,
        Prod.mk.injEq, Except.ok.injEq] at h
      obtain ⟨rfl, rfl⟩ := h
      refine ⟨?_, le_trans (Nat.le_of_eq (by simp)) (le_refl _)⟩
      simp [get_modality, lookupA_setA_self]

theorem get_projection_idem (env : Env) (code : List Char) (st : PState)
    (i : Nat) (st₁ : PState) (hf : ∀ n, env.fail n = none)
    (h : get_projection env code st = (.ok i, st₁)) :
    get_projection env code st₁ = (.ok i, st₁) ∧
    st₁.cur.projection_master.length ≤ st.cur.projection_master.length + 1 := by
  simp only [get_projection, dbFetchOne, hf] at h
  split at h
  · rename_i pid heq
    simp only [Prod.mk.injEq, Except.ok.injEq] at h
    obtain ⟨rfl, rfl⟩ := h
    exact ⟨by simp [get_projection, heq], Nat.le_succ _⟩
  · rename_i heq
    split at h
    · rename_i pid heq2
      simp only [catchReraise, Prod.mk.injEq, Except.ok.injEq] at h
      obtain ⟨rfl, rfl⟩ := h
      refine ⟨?_, Nat.le_succ _⟩
      simp [get_projection, lookupA_setA_self]
    · rename_i heq2
      simp only [freshUuid, dbExecute, hf, andThen, dbCommit, catchReraise,
        Prod.mk.injEq, Except.ok.injEq] at h
      obtain ⟨rfl, rfl⟩ := h
      refine ⟨?_, le_trans (Nat.le_of_eq (by simp)) (le_refl _)⟩
      simp [get_projection, lookupA_setA_self]

theorem get_region_idem (env : Env) (code name body_system : List Char) (st : PState)
    (i : Nat) (st₁ : PState) (hf : ∀ n, env.fail n = none)
    (h : get_region env code name body_system st = (.ok i, st₁)) :
    get_region env code name body_system st₁ = (.ok i, st₁) ∧
    st₁.cur.anatomical_region_master.length ≤
      st.cur.anatomical_region_master.length + 1 := by
  simp only [get_region, dbFetchOne, hf] at h
  split at h
  · rename_i rid heq
    simp only [Prod.mk.injEq, Except.ok.injEq] at h
    obtain ⟨rfl, rfl⟩ := h
    exact ⟨by simp [get_region, heq], Nat.le_succ _⟩
  · rename_i heq
    split at h
    · rename_i rid heq2
      simp only [catchReraise, Prod.mk.injEq, Except.ok.injEq] at h
      obtain ⟨rfl, rfl⟩ := h
      refine ⟨?_, Nat.le_succ _⟩
      simp [get_region, lookupA_setA_self]
    · rename_i heq2
      simp only [freshUuid, dbExecute, hf, andThen, dbCommit, catchReraise,
        Prod.mk.injEq, Except.ok.injEq] at h
      obtain ⟨rfl, rfl⟩ := h
      refine ⟨?_, le_trans (Nat.le_of_eq (by simp)) (le_refl _)⟩
      simp [get_region, lookupA_setA_self]

theorem get_diagnosis_idem (env : Env) (name : List Char) (st : PState)
    (i : Nat) (st₁ : PState) (hf : ∀ n, env.fail n = none)
    (h : get_diagnosis env name st = (.ok i, st₁)) :
    get_diagnosis env name st₁ = (.ok i, st₁) ∧
    st₁.cur.diagnosis_master.length ≤ st.cur.diagnosis_master.length + 1 := by
  simp only [get_diagnosis, dbFetchOne, hf] at h
  split at h
  · rename_i did heq
    simp only [Prod.mk.injEq, Except.ok.injEq] at h
    obtain ⟨rfl, rfl⟩ := h
    exact ⟨by simp [get_diagnosis, heq], Nat.le_succ _⟩
  · rename_i heq
    split at h
    · rename_i did cat heq2
      split at h
      · rename_i hcond
        simp only [dbExecute, hf, andThen, dbCommit, catchReraise,
          Prod.mk.injEq, Except.ok.injEq] at h
        obtain ⟨rfl, rfl⟩ := h
        refine ⟨?_, le_trans (Nat.le_of_eq (by simp)) (Nat.le_succ _)⟩
        simp [get_diagnosis, lookupA_setA_self]
      · rename_i hcond
        simp only [andThen, catchReraise, Prod.mk.injEq, Except.ok.injEq] at h
        obtain ⟨rfl, rfl⟩ := h
        refine ⟨?_, Nat.le_succ _⟩
        simp [get_diagnosis, lookupA_setA_self]
    · rename_i heq2
      simp only [freshUuid, dbExecute, hf, andThen, dbCommit, catchReraise,
        Prod.mk.injEq, Except.ok.injEq] at h
      obtain ⟨rfl, rfl⟩ := h
      refine ⟨?_, le_trans (Nat.le_of_eq (by simp)) (le_refl _)⟩
      simp [get_diagnosis, lookupA_setA_self]

end Pipeline

/-- Claim C4: for every reference entity type (facility, modality,
projection, anatomical region, diagnosis), resolving the same natural code
twice within one run via the corresponding `MasterDataManager.get_*` method
is idempotent: after a first successful resolution the table has grown by
at most one row (at most one insert), and the second resolution returns the
same surrogate id while performing no database statement at all (the state,
and hence the table, is untouched). -/
theorem master_data_resolve_idempotent (env : Pipeline.Env)
    (hnf : Pipeline.noFail env) :
    (∀ name loc st i st₁,
      Pipeline.get_facility env name loc st = (.ok i, st₁) →
      Pipeline.get_facility env name loc st₁ = (.ok i, st₁) ∧
      st₁.cur.facility_master.length ≤ st.cur.facility_master.length + 1) ∧
    (∀ code st i st₁,
      Pipeline.get_modality env code st = (.ok i, st₁) →
      Pipeline.get_modality env code st₁ = (.ok i, st₁) ∧
      st₁.cur.modality_master.length ≤ st.cur.modality_master.length + 1) ∧
    (∀ code st i st₁,
      Pipeline.get_projection env code st = (.ok i, st₁) →
      Pipeline.get_projection env code st₁ = (.ok i, st₁) ∧
      st₁.cur.projection_master.length ≤ st.cur.projection_master.length + 1) ∧
    (∀ code name body_system st i st₁,
      Pipeline.get_region env code name body_system st = (.ok i, st₁) →
      Pipeline.get_region env code name body_system st₁ = (.ok i, st₁) ∧
      st₁.cur.anatomical_region_master.length ≤
        st.cur.anatomical_region_master.length + 1) ∧
    (∀ name st i st₁,
      Pipeline.get_diagnosis env name st = (.ok i, st₁) →
      Pipeline.get_diagnosis env name st₁ = (.ok i, st₁) ∧
      st₁.cur.diagnosis_master.length ≤ st.cur.diagnosis_master.length + 1) :=
  ⟨fun name loc st i st₁ h => Pipeline.get_facility_idem env name loc st i st₁ hnf h,
   fun code st i st₁ h => Pipeline.get_modality_idem env code st i st₁ hnf h,
   fun code st i st₁ h => Pipeline.get_projection_idem env code st i st₁ hnf h,
   fun code name bs st i st₁ h => Pipeline.get_region_idem env code name bs st i st₁ hnf h,
   fun name st i st₁ h => Pipeline.get_diagnosis_idem env name st i st₁ hnf h⟩

/-- Witness for C4: a concrete first resolution of facility "FAC"/"LOC"
from the empty initial state (which inserts the row), then the second
resolution returning the same surrogate id 0 with the state unchanged. -/
theorem master_data_resolve_idempotent_witness :
    Pipeline.get_facility c2EnvOk (S "FAC") (S "LOC")
        ((Pipeline.get_facility c2EnvOk (S "FAC") (S "LOC")
          (Pipeline.initState Pipeline.emptyTables)).2) =
      (.ok 0, (Pipeline.get_facility c2EnvOk (S "FAC") (S "LOC")
          (Pipeline.initState Pipeline.emptyTables)).2) ∧
    ((Pipeline.get_facility c2EnvOk (S "FAC") (S "LOC")
        (Pipeline.initState Pipeline.emptyTables)).2).cur.facility_master.length ≤
      (Pipeline.initState Pipeline.emptyTables).cur.facility_master.length + 1 :=
  (master_data_resolve_idempotent c2EnvOk (fun _ => rfl)).1 (S "FAC") (S "LOC")
    (Pipeline.initState Pipeline.emptyTables) 0
    ((Pipeline.get_facility c2EnvOk (S "FAC") (S "LOC")
      (Pipeline.initState Pipeline.emptyTables)).2) (by rfl)

namespace Pipeline

theorem get_facility_noFail (env : Env) (hf : ∀ n, env.fail n = none)
    (name loc : List Char) (st : PState) :
    ∃ i st', get_facility env name loc st = (.ok i, st') ∧
      st'.cur.clinical_reports = st.cur.clinical_reports ∧
      st'.cur.language_registry = st.cur.language_registry ∧
      st'.stats = st.stats := by
  simp only [get_facility, dbFetchOne, hf]
  split
  · exact ⟨_, _, rfl, rfl, rfl, rfl⟩
  · simp only [freshUuid, dbExecute, hf, andThen, dbCommit]
    split
    · simp only [catchReraise]
      exact ⟨_, _, rfl, rfl, rfl, rfl⟩
    · simp only [catchReraise]
      exact ⟨_, _, rfl, rfl, rfl, rfl⟩

theorem get_modality_noFail (env : Env) (hf : ∀ n, env.fail n = none)
    (code : List Char) (st : PState) :
    ∃ i st', get_modality env code st = (.ok i, st') ∧
      st'.cur.clinical_reports = st.cur.clinical_reports ∧
      st'.cur.language_registry = st.cur.language_registry ∧
      st'.stats = st.stats := by
  simp only [get_modality, dbFetchOne, hf]
  split
  · exact ⟨_, _, rfl, rfl, rfl, rfl⟩
  · simp only [freshUuid, dbExecute, hf, andThen, dbCommit]
    split
    · simp only [catchReraise]
      exact ⟨_, _, rfl, rfl, rfl, rfl⟩
    · simp only [catchReraise]
      exact ⟨_, _, rfl, rfl, rfl, rfl⟩

theorem get_projection_noFail (env : Env) (hf : ∀ n, env.fail n = none)
    (code : List Char) (st : PState) :
    ∃ i st', get_projection env code st = (.ok i, st') ∧
      st'.cur.clinical_reports = st.cur.clinical_reports ∧
      st'.cur.language_registry = st.cur.language_registry ∧
      st'.stats = st.stats := by
  simp only [get_projection, dbFetchOne, hf]
  split
  · exact ⟨_, _, rfl, rfl, rfl, rfl⟩
  · simp only [freshUuid, dbExecute, hf, andThen, dbCommit]
    split
    · simp only [catchReraise]
      exact ⟨_, _, rfl, rfl, rfl, rfl⟩
    · simp only [catchReraise]
      exact ⟨_, _, rfl, rfl, rfl, rfl⟩

theorem get_region_noFail (env : Env) (hf : ∀ n, env.fail n = none)
    (code name body_system : List Char) (st : PState) :
    ∃ i st', get_region env code name body_system st = (.ok i, st') ∧
      st'.cur.clinical_reports = st.cur.clinical_reports ∧
      st'.cur.language_registry = st.cur.language_registry ∧
      st'.stats = st.stats := by
  simp only [get_region, dbFetchOne, hf]
  split
  · exact ⟨_, _, rfl, rfl, rfl, rfl⟩
  · simp only [freshUuid, dbExecute, hf, andThen, dbCommit]
    split
    · simp only [catchReraise]
      exact ⟨_, _, rfl, rfl, rfl, rfl⟩
    · simp only [catchReraise]
      exact ⟨_, _, rfl, rfl, rfl, rfl⟩

theorem get_diagnosis_noFail (env : Env) (hf : ∀ n, env.fail n = none)
    (name : List Char) (st : PState) :
    ∃ i st', get_diagnosis env name st = (.ok i, st') ∧
      st'.cur.clinical_reports = st.cur.clinical_reports ∧
      st'.cur.language_registry = st.cur.language_registry ∧
      st'.stats = st.stats := by
  simp only [get_diagnosis, dbFetchOne, hf]
  split
  · exact ⟨_, _, rfl, rfl, rfl, rfl⟩
  · simp only [freshUuid, dbExecute, hf]
    split
    · split
      · simp only [andThen, dbCommit, hf, catchReraise]
        exact ⟨_, _, rfl, rfl, rfl, rfl⟩
      · simp only [andThen, catchReraise]
        exact ⟨_, _, rfl, rfl, rfl, rfl⟩
    · simp only [andThen, dbCommit, hf, catchReraise]
      exact ⟨_, _, rfl, rfl, rfl, rfl⟩

theorem insertDiagnosesLoop_noFail (env : Env) (hf : ∀ n, env.fail n = none)
    (procid : Nat) :
    ∀ diags seq st, ∃ st',
      insertDiagnosesLoop env procid diags seq st = (.ok (), st') ∧
      st'.cur.clinical_reports = st.cur.clinical_reports ∧
      st'.stats = st.stats := by
  intro diags
  induction diags with
  | nil => intro seq st; exact ⟨st, rfl, rfl, rfl⟩
  | cons d rest ih =>
    intro seq st
    obtain ⟨i, s1, hc, hcr, hlr, hst⟩ := get_diagnosis_noFail env hf d st
    simp only [insertDiagnosesLoop]
    rw [hc]
    simp only [andThen, freshUuid, dbExecute, hf]
    obtain ⟨s2, hc2, hcr2, hst2⟩ := ih (seq + 1) _
    refine ⟨s2, hc2, ?_, ?_⟩
    · rw [hcr2]; simpa using hcr
    · rw [hst2]; simpa using hst

end Pipeline

namespace Pipeline

theorem andThen_ok {α β : Type} (a : α) (st : PState)
    (f : α → PState → Except (List Char) β × PState) :
    andThen (.ok a, st) f = f a st := rfl

end Pipeline

open Pipeline in
/-- Claim C9: for every input row processed by `ETLPipeline.process_row`
(under a database that raises no errors, with well-formed language ids), a
`clinical_reports` row is written if and only if the row's report text is
non-empty and the master `language_registry` contains a language with code
`en`; in particular when the `en` language is absent the report insert is
silently skipped while the row is still processed and counted as a
success. -/
theorem process_row_report_iff (env : Pipeline.Env) (row : Pipeline.Row)
    (idx : Nat) (st : Pipeline.PState) (hnf : Pipeline.noFail env)
    (hreg : ∀ l ∈ st.cur.language_registry, l.language_id ≠ []) :
    (Pipeline.process_row env row idx st).1 = true ∧
    (Pipeline.process_row env row idx st).2.stats.success = st.stats.success + 1 ∧
    (Pipeline.process_row env row idx st).2.stats.failed = st.stats.failed ∧
    (Pipeline.process_row env row idx st).2.stats.errors = st.stats.errors ∧
    (Pipeline.process_row env row idx st).2.cur.clinical_reports.length =
      st.cur.clinical_reports.length +
        (if Pipeline.normalize_text row.Report [] ≠ [] ∧
            (List.find? (fun l => l.language_code == S "en")
              st.cur.language_registry).isSome
         then 1 else 0) := by
  have hf : ∀ n, env.fail n = none := hnf
  obtain ⟨i1, s1, hc1, hcr1, hlr1, hst1⟩ := get_facility_noFail env hf _ _ st
  obtain ⟨i2, s2, hc2, hcr2, hlr2, hst2⟩ := get_modality_noFail env hf _ s1
  obtain ⟨i3, s3, hc3, hcr3, hlr3, hst3⟩ := get_projection_noFail env hf _ s2
  obtain ⟨i4, s4, hc4, hcr4, hlr4, hst4⟩ := get_region_noFail env hf _ _ _ s3
  simp only [process_row]
  rw [hc1]
  simp only [andThen_ok]
  rw [hc2]
  simp only [andThen_ok]
  rw [hc3]
  simp only [andThen_ok]
  rw [hc4]
  simp only [andThen_ok]
  simp only [dbFetchOne, hf]
  split
  · -- existing patient
    simp only [andThen_ok, freshUuid, dbExecute, hf]
    split
    · rename_i hrep
      rw [hlr4, hlr3, hlr2, hlr1]
      split
      · rename_i hlang
        simp only [andThen_ok]
        obtain ⟨sF, hcF, hcrF, hstF⟩ := insertDiagnosesLoop_noFail env hf _ _ _ _
        rw [hcF]
        simp only [rowCatch]
        have hsome : (List.find? (fun l => l.language_code == S "en")
            st.cur.language_registry).isSome = true := by
          cases hfind : List.find? (fun l => l.language_code == S "en")
              st.cur.language_registry with
          | some l => rfl
          | none => rw [hfind] at hlang; simp at hlang
        refine ⟨?_, ?_, ?_, ?_, ?_⟩
        · trivial
        · simp [hstF, hst4, hst3, hst2, hst1]
        · simp [hstF, hst4, hst3, hst2, hst1]
        · simp [hstF, hst4, hst3, hst2, hst1]
        · simp [hcrF, hcr4, hcr3, hcr2, hcr1, hrep, hsome]
      · rename_i hno
        simp only [andThen_ok]
        obtain ⟨sF, hcF, hcrF, hstF⟩ := insertDiagnosesLoop_noFail env hf _ _ _ _
        rw [hcF]
        simp only [rowCatch]
        have hnone : List.find? (fun l => l.language_code == S "en")
            st.cur.language_registry = none := by
          cases hfind : List.find? (fun l => l.language_code == S "en")
              st.cur.language_registry with
          | some l =>
            exfalso
            rw [hfind] at hno
            simp at hno
            exact hreg l (List.mem_of_find?_eq_some hfind) hno
          | none => rfl
        refine ⟨?_, ?_, ?_, ?_, ?_⟩
        · trivial
        · simp [hstF, hst4, hst3, hst2, hst1]
        · simp [hstF, hst4, hst3, hst2, hst1]
        · simp [hstF, hst4, hst3, hst2, hst1]
        · simp [hcrF, hcr4, hcr3, hcr2, hcr1, hnone]
    · rename_i hrep
      simp only [ne_eq, not_not] at hrep
      simp only [andThen_ok]
      obtain ⟨sF, hcF, hcrF, hstF⟩ := insertDiagnosesLoop_noFail env hf _ _ _ _
      rw [hcF]
      simp only [rowCatch]
      refine ⟨?_, ?_, ?_, ?_, ?_⟩
      · trivial
      · simp [hstF, hst4, hst3, hst2, hst1]
      · simp [hstF, hst4, hst3, hst2, hst1]
      · simp [hstF, hst4, hst3, hst2, hst1]
      · simp [hcrF, hcr4, hcr3, hcr2, hcr1, hrep]
  · -- new patient inserted
    simp only [andThen_ok, freshUuid, dbExecute, hf]
    split
    · rename_i hrep
      rw [hlr4, hlr3, hlr2, hlr1]
      split
      · rename_i hlang
        simp only [andThen_ok]
        obtain ⟨sF, hcF, hcrF, hstF⟩ := insertDiagnosesLoop_noFail env hf _ _ _ _
        rw [hcF]
        simp only [rowCatch]
        have hsome : (List.find? (fun l => l.language_code == S "en")
            st.cur.language_registry).isSome = true := by
          cases hfind : List.find? (fun l => l.language_code == S "en")
              st.cur.language_registry with
          | some l => rfl
          | none => rw [hfind] at hlang; simp at hlang
        refine ⟨?_, ?_, ?_, ?_, ?_⟩
        · trivial
        · simp [hstF, hst4, hst3, hst2, hst1]
        · simp [hstF, hst4, hst3, hst2, hst1]
        · simp [hstF, hst4, hst3, hst2, hst1]
        · simp [hcrF, hcr4, hcr3, hcr2, hcr1, hrep, hsome]
      · rename_i hno
        simp only [andThen_ok]
        obtain ⟨sF, hcF, hcrF, hstF⟩ := insertDiagnosesLoop_noFail env hf _ _ _ _
        rw [hcF]
        simp only [rowCatch]
        have hnone : List.find? (fun l => l.language_code == S "en")
            st.cur.language_registry = none := by
          cases hfind : List.find? (fun l => l.language_code == S "en")
              st.cur.language_registry with
          | some l =>
            exfalso
            rw [hfind] at hno
            simp at hno
            exact hreg l (List.mem_of_find?_eq_some hfind) hno
          | none => rfl
        refine ⟨?_, ?_, ?_, ?_, ?_⟩
        · trivial
        · simp [hstF, hst4, hst3, hst2, hst1]
        · simp [hstF, hst4, hst3, hst2, hst1]
        · simp [hstF, hst4, hst3, hst2, hst1]
        · simp [hcrF, hcr4, hcr3, hcr2, hcr1, hnone]
    · rename_i hrep
      simp only [ne_eq, not_not] at hrep
      simp only [andThen_ok]
      obtain ⟨sF, hcF, hcrF, hstF⟩ := insertDiagnosesLoop_noFail env hf _ _ _ _
      rw [hcF]
      simp only [rowCatch]
      refine ⟨?_, ?_, ?_, ?_, ?_⟩
      · trivial
      · simp [hstF, hst4, hst3, hst2, hst1]
      · simp [hstF, hst4, hst3, hst2, hst1]
      · simp [hstF, hst4, hst3, hst2, hst1]
      · simp [hcrF, hcr4, hcr3, hcr2, hcr1, hrep]

/-- Witness for C9: a concrete row with a non-empty report processed from an
initial state whose language registry holds the `en` language: the row
succeeds and exactly one clinical report is written. -/
theorem process_row_report_iff_witness :
    (Pipeline.process_row c2EnvOk
        ⟨some (S "P1"), some 1, some 10, some (S "S1"), some (S "M"), none, none,
         some (S "L"), some (S "H"), some (S "DX"), some (S "PA"), some (S "I1"),
         some (S "Clear lungs"), none, none, none⟩ 1
        (Pipeline.initState
          { Pipeline.emptyTables with
            language_registry := [⟨S "L1", S "en"⟩] })).1 = true ∧
    (Pipeline.process_row c2EnvOk
        ⟨some (S "P1"), some 1, some 10, some (S "S1"), some (S "M"), none, none,
         some (S "L"), some (S "H"), some (S "DX"), some (S "PA"), some (S "I1"),
         some (S "Clear lungs"), none, none, none⟩ 1
        (Pipeline.initState
          { Pipeline.emptyTables with
            language_registry := [⟨S "L1", S "en"⟩] })).2.stats.success =
      (Pipeline.initState
        { Pipeline.emptyTables with
          language_registry := [⟨S "L1", S "en"⟩] }).stats.success + 1 ∧
    (Pipeline.process_row c2EnvOk
        ⟨some (S "P1"), some 1, some 10, some (S "S1"), some (S "M"), none, none,
         some (S "L"), some (S "H"), some (S "DX"), some (S "PA"), some (S "I1"),
         some (S "Clear lungs"), none, none, none⟩ 1
        (Pipeline.initState
          { Pipeline.emptyTables with
            language_registry := [⟨S "L1", S "en"⟩] })).2.stats.failed =
      (Pipeline.initState
        { Pipeline.emptyTables with
          language_registry := [⟨S "L1", S "en"⟩] }).stats.failed ∧
    (Pipeline.process_row c2EnvOk
        ⟨some (S "P1"), some 1, some 10, some (S "S1"), some (S "M"), none, none,
         some (S "L"), some (S "H"), some (S "DX"), some (S "PA"), some (S "I1"),
         some (S "Clear lungs"), none, none, none⟩ 1
        (Pipeline.initState
          { Pipeline.emptyTables with
            language_registry := [⟨S "L1", S "en"⟩] })).2.stats.errors =
      (Pipeline.initState
        { Pipeline.emptyTables with
          language_registry := [⟨S "L1", S "en"⟩] }).stats.errors ∧
    (Pipeline.process_row c2EnvOk
        ⟨some (S "P1"), some 1, some 10, some (S "S1"), some (S "M"), none, none,
         some (S "L"), some (S "H"), some (S "DX"), some (S "PA"), some (S "I1"),
         some (S "Clear lungs"), none, none, none⟩ 1
        (Pipeline.initState
          { Pipeline.emptyTables with
            language_registry := [⟨S "L1", S "en"⟩] })).2.cur.clinical_reports.length =
      (Pipeline.initState
        { Pipeline.emptyTables with
          language_registry := [⟨S "L1", S "en"⟩] }).cur.clinical_reports.length +
        (if Pipeline.normalize_text
              (Pipeline.Row.mk (some (S "P1")) (some 1) (some 10) (some (S "S1"))
                (some (S "M")) none none (some (S "L")) (some (S "H")) (some (S "DX"))
                (some (S "PA")) (some (S "I1")) (some (S "Clear lungs")) none none
                none).Report [] ≠ [] ∧
            (List.find? (fun l => l.language_code == S "en")
              (Pipeline.initState
                { Pipeline.emptyTables with
                  language_registry := [⟨S "L1", S "en"⟩] }).cur.language_registry).isSome
         then 1 else 0) :=
  process_row_report_iff c2EnvOk
    ⟨some (S "P1"), some 1, some 10, some (S "S1"), some (S "M"), none, none,
     some (S "L"), some (S "H"), some (S "DX"), some (S "PA"), some (S "I1"),
     some (S "Clear lungs"), none, none, none⟩ 1
    (Pipeline.initState
      { Pipeline.emptyTables with language_registry := [⟨S "L1", S "en"⟩] })
    (fun _ => rfl) (by decide)

namespace Analytics

theorem factRowTry_noFail (env : AEnv) (hf : ∀ n, env.fail n = none)
    (r : FactSrcRow) (st : AState) :
    (factRowTry env r st).1 = .ok () ∧
    (factRowTry env r st).2.tgt = upsertFactProc r
      (((st.tgt.dim_patient.find? (fun d => d.patient_id == r.patient_id)).map
        (·.patient_sk)).getD (-1))
      (((st.tgt.dim_facility.find? (fun d => d.facility_id == r.facility_id)).map
        (·.facility_sk)).getD (-1))
      (((st.tgt.dim_modality.find? (fun d => d.modality_id == r.modality_id)).map
        (·.modality_sk)).getD (-1))
      (match r.diagnosis_id with
       | none => -1
       | some did =>
         ((st.tgt.dim_diagnosis.find? (fun d => d.diagnosis_id == did)).map
           (·.diagnosis_sk)).getD (-1))
      st.tgt := by
  cases hd : r.diagnosis_id with
  | none =>
    refine ⟨?_, ?_⟩ <;> simp [factRowTry, aFetchTgt, hf, andThenA, aExec, hd]
  | some did =>
    refine ⟨?_, ?_⟩ <;> simp [factRowTry, aFetchTgt, hf, andThenA, aExec, hd]

theorem factLoop_noFail (env : AEnv) (hf : ∀ n, env.fail n = none) :
    ∀ rows n st, (factLoop env rows n st).1 = n + rows.length := by
  intro rows
  induction rows with
  | nil => intro n st; simp [factLoop]
  | cons r rs ih =>
    intro n st
    have h1 := (factRowTry_noFail env hf r st).1
    rcases hr : factRowTry env r st with ⟨e, st2⟩
    rw [hr] at h1
    simp at h1
    subst h1
    simp only [factLoop, hr]
    rw [ih]
    simp [Nat.add_assoc, Nat.add_comm 1 rs.length]

end Analytics

/-- Claim C6: during fact loading (`load_fact_procedure`, non-failing
database), a dimension-lookup miss never fails or skips the fact row: every
per-row resolution succeeds and upserts the row keyed by its
`procedure_id`, substituting the `-1` sentinel for each unresolved
dimension surrogate key; the loop counts every row, and
`load_fact_procedure` reports exactly the number of extracted rows; in the
all-miss case for a fresh procedure the inserted row carries `-1` for the
patient/facility/modality keys and `some (-1)` for the diagnosis key. -/
theorem fact_procedure_sentinel_fallback (env : Analytics.AEnv)
    (hnf : Analytics.aNoFail env) :
    (∀ r st, (Analytics.factRowTry env r st).1 = .ok () ∧
      (Analytics.factRowTry env r st).2.tgt = Analytics.upsertFactProc r
        (((st.tgt.dim_patient.find? (fun d => d.patient_id == r.patient_id)).map
          (·.patient_sk)).getD (-1))
        (((st.tgt.dim_facility.find? (fun d => d.facility_id == r.facility_id)).map
          (·.facility_sk)).getD (-1))
        (((st.tgt.dim_modality.find? (fun d => d.modality_id == r.modality_id)).map
          (·.modality_sk)).getD (-1))
        (match r.diagnosis_id with
         | none => -1
         | some did =>
           ((st.tgt.dim_diagnosis.find? (fun d => d.diagnosis_id == did)).map
             (·.diagnosis_sk)).getD (-1))
        st.tgt) ∧
    (∀ rows n st, (Analytics.factLoop env rows n st).1 = n + rows.length) ∧
    (∀ r st did,
      st.tgt.dim_patient.find? (fun d => d.patient_id == r.patient_id) = none →
      st.tgt.dim_facility.find? (fun d => d.facility_id == r.facility_id) = none →
      st.tgt.dim_modality.find? (fun d => d.modality_id == r.modality_id) = none →
      r.diagnosis_id = some did →
      st.tgt.dim_diagnosis.find? (fun d => d.diagnosis_id == did) = none →
      st.tgt.fact_procedure.find? (fun f => f.procedure_id == r.procedure_id) = none →
      (Analytics.factRowTry env r st).2.tgt.fact_procedure =
        st.tgt.fact_procedure ++
          [⟨r.encounter_id, r.procedure_id, -1, -1, -1, some (-1),
            r.encounter_date, r.projection_name, r.region_name,
            r.finding_severity, r.abnormality_detected, r.total_images,
            r.report_word_count⟩]) ∧
    (∀ (mode : Analytics.EtlMode) hours st,
      (Analytics.load_fact_procedure mode env hours st).1 =
        .ok (Analytics.extract_fact_procedure
          (if mode = .full then
            ({ st with tgt := { st.tgt with fact_procedure := [] } } : Analytics.AState).src
           else st.src)
          (if mode = .full then none else some (env.now - hours))).length) := by
  have hf : ∀ n, env.fail n = none := hnf
  refine ⟨fun r st => Analytics.factRowTry_noFail env hf r st,
    Analytics.factLoop_noFail env hf, ?_, ?_⟩
  · intro r st did hp hfc hm hd hdd hnew
    have h2 := (Analytics.factRowTry_noFail env hf r st).2
    rw [h2, hd]
    simp [Analytics.upsertFactProc, hp, hfc, hm, hdd, hnew]
  · intro mode hours st
    cases mode with
    | incremental =>
      simp [Analytics.load_fact_procedure, Analytics.aExec, Analytics.aQuerySrc,
        Analytics.aCommit, hf, Analytics.andThenA, Analytics.loadCatch,
        Analytics.factLoop_noFail env hf]
    | full =>
      simp [Analytics.load_fact_procedure, Analytics.aExec, Analytics.aQuerySrc,
        Analytics.aCommit, hf, Analytics.andThenA, Analytics.loadCatch,
        Analytics.factLoop_noFail env hf]

/-- Witness for C6: a concrete fact row whose four dimension lookups all
miss against an empty target warehouse is still inserted, with the `-1`
sentinels substituted. -/
theorem fact_procedure_sentinel_fallback_witness :
    (Analytics.factRowTry ⟨fun _ => none, 100⟩
        ⟨1, 3, 5, 6, 7, some 9, 50, none, none, none, none, 2, 0⟩
        (Analytics.initAState c1Src Analytics.emptyTarget)).2.tgt.fact_procedure =
      (Analytics.initAState c1Src Analytics.emptyTarget).tgt.fact_procedure ++
        [⟨1, 3, -1, -1, -1, some (-1), 50, none, none, none, none, 2, 0⟩] :=
  (fact_procedure_sentinel_fallback ⟨fun _ => none, 100⟩ (fun _ => rfl)).2.2.1
    ⟨1, 3, 5, 6, 7, some 9, 50, none, none, none, none, 2, 0⟩
    (Analytics.initAState c1Src Analytics.emptyTarget) 9
    (by decide) (by decide) (by decide) rfl (by decide) (by decide)
